import Mathlib

/-!
# Sounder firmware (`Code & Sim/main.c`): shallow embedding and verification

The firmware targets an 8-bit AVR (ATmega328P, avr-gcc): `int` and
`unsigned int` are 16 bits wide, `long` and `uint32_t` are 32 bits wide.
Machine integers are natural numbers reduced modulo `2^w` at every place
where the C code stores or computes in a `w`-bit unsigned type.

State shared between the interrupt handlers and `main`, the loop-carried
locals of `main` and the I/O registers the program writes are gathered in one
record `State`.  Each interrupt handler and one pass through the `while (1)`
body are functions on that record; values coming from the hardware (the `PINC`
reads, the ADC sample, the received serial byte) are explicit arguments.
-/

namespace Sounder

/-! ## Machine arithmetic -/

/-- Value stored by an assignment to a `uint8_t` object. -/
def u8 (n : Nat) : Nat := n % 2 ^ 8

/-- Value stored by an assignment to a `uint16_t` object, and result of
`unsigned int` arithmetic. -/
def u16 (n : Nat) : Nat := n % 2 ^ 16

/-- Result of `uint32_t` arithmetic. -/
def u32 (n : Nat) : Nat := n % 2 ^ 32

/-- Unsigned 16-bit subtraction `a - b` (wraps below zero). -/
def sub16 (a b : Nat) : Nat := (a % 2 ^ 16 + 2 ^ 16 - b % 2 ^ 16) % 2 ^ 16

/-- Unsigned 32-bit subtraction `a - b` (wraps below zero). -/
def sub32 (a b : Nat) : Nat := (a % 2 ^ 32 + 2 ^ 32 - b % 2 ^ 32) % 2 ^ 32

/-- C logical negation `!x` stored in a `uint8_t`. -/
def lnot (x : Nat) : Nat := if x = 0 then 1 else 0

/-! ## Constants -/

/-- Line 7: `#define F_CPU 16000000` (a `long` constant on this target). -/
def F_CPU : Nat := 16000000

/-- Line 10: `#define MIN_FREQ 50`. -/
def MIN_FREQ : Nat := 50

/-- Line 11: `#define MAX_FREQ 1000`. -/
def MAX_FREQ : Nat := 1000

/-- Bit number of `PB2` in `PORTB` (from `avr/io.h` for the ATmega328P). -/
def PB2 : Nat := 2

/-- Bit number of `PC3` in `PORTC` (from `avr/io.h`). -/
def PC3 : Nat := 3

/-- Bit number of `PC4` in `PORTC`/`PINC` (from `avr/io.h`). -/
def PC4 : Nat := 4

/-- Bit number of `PC5` in `PORTC`/`PINC` (from `avr/io.h`). -/
def PC5 : Nat := 5

/-- Bit number of `OCIE1A` in `TIMSK1` (from `avr/io.h`). -/
def OCIE1A : Nat := 1

/-! ## Analog mapping (lines 215 and 219) -/

/-- Line 215: the value assigned to the 16-bit `frequency`,
`MIN_FREQ + ((uint32_t)adc_value * (MAX_FREQ - MIN_FREQ)) / 1023`.
The product, the quotient and the sum are `uint32_t`; the assignment
truncates to 16 bits. -/
def map_frequency (adc_value : Nat) : Nat :=
  u16 (u32 (MIN_FREQ + u32 (u16 adc_value * (MAX_FREQ - MIN_FREQ)) / 1023))

/-- Line 219, right-hand side:
`255 - ((uint32_t)(frequency - MIN_FREQ) * 255) / (MAX_FREQ - MIN_FREQ)`.
`frequency - MIN_FREQ` is 16-bit unsigned; the product, the quotient and
the difference are `uint32_t`. -/
def brightness_wide (frequency : Nat) : Nat :=
  sub32 255 (u32 (sub16 frequency MIN_FREQ * 255) / (MAX_FREQ - MIN_FREQ))

/-- Line 219: the value assigned to the 8-bit `brightness` (the 32-bit
right-hand side truncated to 8 bits). -/
def map_brightness (frequency : Nat) : Nat :=
  u8 (brightness_wide frequency)

/-! ## Program state and observable effects -/

/-- Globals (lines 26-28), loop-carried locals of `main` (lines 126-131) and
the I/O registers written by the handlers and the control loop. -/
structure State where
  frequency : Nat
  system_active : Nat
  paused : Nat
  prev_switch_state : Nat
  prev_reset_button_state : Nat
  print_counter : Nat
  PORTB : Nat
  PORTC : Nat
  PORTD : Nat
  TIMSK1 : Nat
  OCR1A : Nat
  OCR0A : Nat
deriving DecidableEq, Repr

/-- Externally visible actions of `main`, in program order. -/
inductive Event where
  | read_PINC
  | delay_ms (ms : Nat)
  | adc_read
  | uart_send_string (str : String)
deriving DecidableEq, Repr

/-- Values supplied by the hardware during one pass of the `while (1)` body:
`PINC` at line 167, `PINC` at line 168, `PINC` at the re-read of line 173,
`PINC` at the re-read of line 197, and the ADC result of line 214.  The two
re-read values are consumed only when the corresponding re-read executes. -/
structure LoopInput where
  pinc_switch : Nat
  pinc_reset : Nat
  pinc_switch_settled : Nat
  pinc_reset_settled : Nat
  adc : Nat
deriving DecidableEq, Repr

/-- The expression `(PINC & (1 << bit)) >> bit` of lines 152, 167, 168, 173, 197. -/
def pin_level (pinc bit : Nat) : Nat := (pinc &&& (1 <<< bit)) >>> bit

/-- Text produced by `%d` for a 16-bit argument (read as a signed `int`). -/
def format_d (n : Nat) : String :=
  if n % 2 ^ 16 < 2 ^ 15 then toString (n % 2 ^ 16) else "-" ++ toString (2 ^ 16 - n % 2 ^ 16)

/-- Line 224: `sprintf(buffer, "Current frequency: %d Hz\r\n", frequency)`. -/
def telemetry_line (frequency : Nat) : String :=
  "Current frequency: " ++ format_d frequency ++ " Hz\r\n"

/-! ## Functions and interrupt handlers -/

/-- Line 78 (`timer1_init`): `OCR1A = F_CPU / (2 * 440) - 1`. -/
def timer1_init_OCR1A : Nat := u16 (F_CPU / (2 * 440) - 1)

/-- Lines 91-95.  `2 * freq` is 16-bit unsigned arithmetic; the quotient and
the difference are computed in `long` (the quotient is at least 244, so the
subtraction never goes below zero) and the store truncates to the 16-bit
register `OCR1A`. -/
def set_frequency (s : State) (freq : Nat) : State :=
  let freq := if freq < MIN_FREQ then MIN_FREQ else freq
  let freq := if freq > MAX_FREQ then MAX_FREQ else freq
  { s with OCR1A := u16 (F_CPU / u16 (2 * freq) - 1) }

/-- Lines 98-100. -/
def set_pwm_duty_cycle (s : State) (duty_cycle : Nat) : State :=
  { s with OCR0A := u8 duty_cycle }

/-- Lines 103-107: `ISR(TIMER1_COMPA_vect)`. -/
def ISR_TIMER1_COMPA (s : State) : State :=
  if s.system_active ≠ 0 ∧ s.paused = 0 then
    { s with PORTB := u8 (s.PORTB ^^^ (1 <<< PB2)) }
  else s

/-- Lines 110-120: `ISR(USART_RX_vect)`; `received_char` is the byte read
from `UDR0`. -/
def ISR_USART_RX (s : State) (received_char : Nat) : State :=
  let s1 :=
    if received_char = '+'.toNat then
      let s0 := { s with frequency := u16 (s.frequency + 10) }
      if s0.frequency > MAX_FREQ then { s0 with frequency := MAX_FREQ } else s0
    else if received_char = '-'.toNat then
      let s0 := { s with frequency := sub16 s.frequency 10 }
      if s0.frequency < MIN_FREQ then { s0 with frequency := MIN_FREQ } else s0
    else s
  set_frequency s1 s1.frequency

/-! ## The control loop (lines 166-231) -/

/-- Lines 171-192: the power-switch block.  `current_switch_state` is the
level read at line 167, `pinc_settled` the value of `PINC` at the re-read of
line 173. -/
def switch_block (s : State) (current_switch_state pinc_settled : Nat) :
    State × List Event :=
  if current_switch_state ≠ s.prev_switch_state then
    let current_switch_state := pin_level pinc_settled PC4
    if current_switch_state ≠ s.prev_switch_state then
      if current_switch_state = 0 then
        let s1 := { s with system_active := lnot s.system_active }
        if s1.system_active ≠ 0 then
          let s2 := { s1 with PORTC := u8 (s1.PORTC ||| (1 <<< PC3)) }
          let s3 := { s2 with TIMSK1 := u8 (s2.TIMSK1 ||| (1 <<< OCIE1A)) }
          ({ s3 with prev_switch_state := current_switch_state },
            [Event.delay_ms 20, Event.read_PINC, Event.uart_send_string "System ON\r\n"])
        else
          let s2 := { s1 with PORTC := u8 (s1.PORTC &&& (0xFFFF ^^^ (1 <<< PC3))) }
          let s3 := { s2 with TIMSK1 := u8 (s2.TIMSK1 &&& (0xFFFF ^^^ (1 <<< OCIE1A))) }
          let s4 := set_pwm_duty_cycle s3 0
          let s5 := { s4 with PORTB := u8 (s4.PORTB &&& (0xFFFF ^^^ (1 <<< PB2))) }
          ({ s5 with prev_switch_state := current_switch_state },
            [Event.delay_ms 20, Event.read_PINC, Event.uart_send_string "System OFF\r\n"])
      else
        ({ s with prev_switch_state := current_switch_state },
          [Event.delay_ms 20, Event.read_PINC])
    else (s, [Event.delay_ms 20, Event.read_PINC])
  else (s, [])

/-- Lines 195-210: the reset-button block.  `reset_button_state` is the level
read at line 168, `pinc_settled` the value of `PINC` at the re-read of
line 197. -/
def reset_block (s : State) (reset_button_state pinc_settled : Nat) :
    State × List Event :=
  if reset_button_state ≠ s.prev_reset_button_state then
    let reset_button_state := pin_level pinc_settled PC5
    if reset_button_state ≠ s.prev_reset_button_state then
      if reset_button_state = 0 then
        let s1 := { s with paused := lnot s.paused }
        if s1.paused ≠ 0 then
          ({ s1 with prev_reset_button_state := reset_button_state },
            [Event.delay_ms 20, Event.read_PINC, Event.uart_send_string "System Paused\r\n"])
        else
          ({ s1 with prev_reset_button_state := reset_button_state },
            [Event.delay_ms 20, Event.read_PINC, Event.uart_send_string "System Resumed\r\n"])
      else
        ({ s with prev_reset_button_state := reset_button_state },
          [Event.delay_ms 20, Event.read_PINC])
    else (s, [Event.delay_ms 20, Event.read_PINC])
  else (s, [])

/-- Lines 213-228: the analog-mapping and telemetry block.  `adc` is the
value returned by `adc_read()`.  `print_counter++ >= 40` compares the value
before the increment. -/
def active_block (s : State) (adc : Nat) : State × List Event :=
  if s.system_active ≠ 0 ∧ s.paused = 0 then
    let adc_value := u16 adc
    let s1 := { s with frequency := map_frequency adc_value }
    let s2 := set_frequency s1 s1.frequency
    let brightness := map_brightness s2.frequency
    let s3 := set_pwm_duty_cycle s2 brightness
    let counter_before := s3.print_counter
    let s4 := { s3 with print_counter := u8 (counter_before + 1) }
    if counter_before ≥ 40 then
      ({ s4 with print_counter := 0 },
        [Event.adc_read, Event.uart_send_string (telemetry_line s4.frequency)])
    else (s4, [Event.adc_read])
  else (s, [])

/-- Lines 167-230: one pass through the body of `while (1)`. -/
def loop_iteration (s : State) (i : LoopInput) : State × List Event :=
  let current_switch_state := pin_level i.pinc_switch PC4
  let reset_button_state := pin_level i.pinc_reset PC5
  let r1 := switch_block s current_switch_state i.pinc_switch_settled
  let r2 := reset_block r1.1 reset_button_state i.pinc_reset_settled
  let r3 := active_block r2.1 i.adc
  (r3.1, [Event.read_PINC, Event.read_PINC] ++ r1.2 ++ r2.2 ++ r3.2 ++ [Event.delay_ms 50])

/-- Lines 26-28 and 124-164: the state on entry to `while (1)`.  `pinc` is the
value of `PINC` read at line 152; `OCR0A` holds its hardware reset value 0
(no initialisation code writes it). -/
def startup (pinc : Nat) : State × List Event :=
  ({ frequency := 440
     system_active := 0
     paused := 0
     prev_switch_state := pin_level pinc PC4
     prev_reset_button_state := 1
     print_counter := 0
     PORTB := 0
     PORTC := u8 (u8 (0 ||| (1 <<< PC4)) ||| (1 <<< PC5))
     PORTD := 0
     TIMSK1 := 1 <<< OCIE1A
     OCR1A := timer1_init_OCR1A
     OCR0A := 0 },
   [Event.read_PINC, Event.delay_ms 100, Event.uart_send_string "System Started\r\n"])

/-! ## Executions -/

/-- One atomic step of the system: a serial-receive interrupt with the
received byte, a timer compare-match interrupt, or one control-loop pass. -/
inductive Step where
  | usart_rx (received_char : Nat)
  | timer1_compa
  | loop (i : LoopInput)
deriving DecidableEq, Repr

/-- Effect of one step. -/
def step (s : State) : Step → State × List Event
  | Step.usart_rx c => (ISR_USART_RX s c, [])
  | Step.timer1_compa => (ISR_TIMER1_COMPA s, [])
  | Step.loop i => loop_iteration s i

/-- Effect of a finite sequence of steps, with the events in order. -/
def run (s : State) : List Step → State × List Event
  | [] => (s, [])
  | st :: rest =>
    let r := step s st
    let r2 := run r.1 rest
    (r2.1, r.2 ++ r2.2)

/-- The hardware delivers a 10-bit ADC result. -/
def Step.adc_in_range : Step → Bool
  | Step.loop i => decide (i.adc ≤ 1023)
  | _ => true

/-- The serial handler run `n` times with the same received byte. -/
def rx_repeat (s : State) (received_char : Nat) : Nat → State
  | 0 => s
  | n + 1 => rx_repeat (ISR_USART_RX s received_char) received_char n

/-- State after consecutive control-loop passes, one per input. -/
def loop_repeat (s : State) : List LoopInput → State
  | [] => s
  | i :: rest => loop_repeat (loop_iteration s i).1 rest

/-- The condition of line 213 as evaluated in the pass that starts in `s`
with input `i`: `system_active && !paused` after both button blocks. -/
def pass_is_active (s : State) (i : LoopInput) : Bool :=
  let r1 := switch_block s (pin_level i.pinc_switch PC4) i.pinc_switch_settled
  let r2 := reset_block r1.1 (pin_level i.pinc_reset PC5) i.pinc_reset_settled
  decide (r2.1.system_active ≠ 0 ∧ r2.1.paused = 0)

/-- Every pass of the run takes the branch of line 213. -/
def all_active (s : State) : List LoopInput → Bool
  | [] => true
  | i :: rest => pass_is_active s i && all_active (loop_iteration s i).1 rest

/-- Input of a pass during which the power switch is held low, the reset
button is released and the ADC returns 512. -/
def hold_input : LoopInput := ⟨32, 48, 32, 48, 512⟩

/-- The strings passed to `uart_send_string`, in order. -/
def uart_output : List Event → List String
  | [] => []
  | Event.uart_send_string str :: rest => str :: uart_output rest
  | _ :: rest => uart_output rest

/-- A reachable state that is active and paused with the sound pin high:
the power switch is pressed (the pass samples 512), the timer interrupt fires
once, then the switch is released while the reset button is pressed. -/
def active_paused_state : State :=
  (run (startup 48).1
    [Step.loop hold_input, Step.timer1_compa, Step.loop ⟨48, 16, 48, 16, 512⟩]).1

/-- Input of a pass in which the power switch is low at both reads and the
reset button is released. -/
def switch_low_input : LoopInput := ⟨32, 48, 32, 48, 0⟩

/-- In a control-loop step the first read of the power-switch pin (line 167)
shows level `L`. -/
def Step.switch_level_is (L : Nat) : Step → Bool
  | Step.loop i => decide (pin_level i.pinc_switch PC4 = L)
  | _ => true

/-- In a control-loop step the first read of the reset-button pin (line 168)
shows level `L`. -/
def Step.reset_level_is (L : Nat) : Step → Bool
  | Step.loop i => decide (pin_level i.pinc_reset PC5 = L)
  | _ => true

/-- Lines 92-94: the divisor `2 * freq` of `set_frequency`, computed in
16-bit unsigned arithmetic from the argument after the two clamping
statements. -/
def set_frequency_divisor (freq : Nat) : Nat :=
  let freq := if freq < MIN_FREQ then MIN_FREQ else freq
  let freq := if freq > MAX_FREQ then MAX_FREQ else freq
  u16 (2 * freq)

/-- The state after the pass from startup in which the power switch is
pressed: active and not paused. -/
def active_state : State := (loop_iteration (startup 48).1 hold_input).1

/-- Input of a pass in which both pins are high at every read (switch and
reset button released) and the ADC returns 512. -/
def release_input : LoopInput := ⟨48, 48, 48, 48, 512⟩

/-- Input of a pass in which the reset button is low at both reads, the
power-switch pin is high and the ADC returns 512. -/
def reset_low_input : LoopInput := ⟨16, 16, 16, 16, 512⟩

/-- A reachable state that is inactive and paused with both buttons
released: from startup the reset button is pressed, then released. -/
def inactive_paused_state : State :=
  (loop_repeat (startup 48).1 [reset_low_input, release_input])

/-- The outputs are off: sound pin `PB2` low, status LED bit `PC3` clear and
duty-cycle register 0. -/
def outputs_off (s : State) : Prop :=
  s.PORTB.testBit PB2 = false ∧ s.PORTC.testBit PC3 = false ∧ s.OCR0A = 0

/-- A run in which the system is switched on, sounds, and is switched off
again: press, timer interrupt, release, timer interrupt, press. -/
def on_off_steps : List Step :=
  [Step.loop hold_input, Step.timer1_compa, Step.loop release_input, Step.timer1_compa,
    Step.loop switch_low_input]

/-- The three tests of lines 171, 175 and 176 for the pass that starts in `s`
with input `i`: the first read and the re-read of the power-switch pin both
differ from the stable level and the re-read shows level 0 (a confirmed press
of the power switch). -/
def switch_press_confirmed (s : State) (i : LoopInput) : Bool :=
  decide (pin_level i.pinc_switch PC4 ≠ s.prev_switch_state ∧
    pin_level i.pinc_switch_settled PC4 ≠ s.prev_switch_state ∧
    pin_level i.pinc_switch_settled PC4 = 0)

/-- Input of a pass in which both the power-switch pin and the reset-button
pin are low at every read and the ADC returns 512. -/
def both_low_input : LoopInput := ⟨0, 0, 0, 0, 512⟩

end Sounder

namespace Sounder

/-! ## Machine-arithmetic lemmas -/

theorem u8_of_lt {n : Nat} (h : n < 256) : u8 n = n := Nat.mod_eq_of_lt h

theorem u16_of_lt {n : Nat} (h : n < 65536) : u16 n = n := Nat.mod_eq_of_lt h

theorem u32_of_lt {n : Nat} (h : n < 4294967296) : u32 n = n := Nat.mod_eq_of_lt h

theorem sub16_of_le {a b : Nat} (ha : a < 65536) (hb : b ≤ a) : sub16 a b = a - b := by
  unfold sub16; omega

theorem sub32_of_le {a b : Nat} (ha : a < 4294967296) (hb : b ≤ a) : sub32 a b = a - b := by
  unfold sub32; omega

theorem map_frequency_eq {v : Nat} (hv : v ≤ 1023) :
    map_frequency v = 50 + v * 950 / 1023 := by
  unfold map_frequency MIN_FREQ MAX_FREQ
  rw [u16_of_lt (by omega : v < 65536), u32_of_lt (by omega : v * (1000 - 50) < 4294967296)]
  have h1 : v * (1000 - 50) / 1023 ≤ 950 := by omega
  rw [u32_of_lt (by omega), u16_of_lt (by omega)]

/-! ## Theorems -/

/-- C1: for every raw reading `v` with `0 ≤ v ≤ 1023` the mapped frequency of
line 215 equals `50 + v * 950 / 1023` without any wrap-around, lies in
`[50, 1000]`, is `50` at `v = 0` and `1000` at `v = 1023`. -/
theorem map_frequency_range (v : Nat) (hv : v ≤ 1023) :
    map_frequency v = 50 + v * 950 / 1023 ∧
    MIN_FREQ ≤ map_frequency v ∧ map_frequency v ≤ MAX_FREQ ∧
    map_frequency 0 = MIN_FREQ ∧ map_frequency 1023 = MAX_FREQ := by
  have h : map_frequency v = 50 + v * 950 / 1023 := map_frequency_eq hv
  refine ⟨h, ?_, ?_, by decide, by decide⟩
  · rw [h]; unfold MIN_FREQ; omega
  · rw [h]; unfold MAX_FREQ; omega

/-- Witness for C1 at the mid-scale reading 512. -/
theorem map_frequency_range_witness :
    512 ≤ 1023 ∧ map_frequency 512 = 50 + 512 * 950 / 1023 ∧
    MIN_FREQ ≤ map_frequency 512 ∧ map_frequency 512 ≤ MAX_FREQ ∧
    map_frequency 0 = MIN_FREQ ∧ map_frequency 1023 = MAX_FREQ :=
  ⟨by decide, map_frequency_range 512 (by decide)⟩

end Sounder

namespace Sounder

/-! ## Brightness mapping -/

theorem brightness_wide_eq {f : Nat} (h1 : 50 ≤ f) (h2 : f ≤ 1000) :
    brightness_wide f = 255 - (f - 50) * 255 / 950 := by
  unfold brightness_wide MIN_FREQ MAX_FREQ
  rw [sub16_of_le (by omega) (by omega), u32_of_lt (by omega)]
  have h3 : (f - 50) * 255 / (1000 - 50) ≤ 255 := by omega
  rw [sub32_of_le (by omega) h3]

theorem map_brightness_eq {f : Nat} (h1 : 50 ≤ f) (h2 : f ≤ 1000) :
    map_brightness f = 255 - (f - 50) * 255 / 950 := by
  unfold map_brightness
  rw [brightness_wide_eq h1 h2, u8_of_lt (by omega)]

/-- C2: for frequencies `50 ≤ f1 ≤ f2 ≤ 1000` the brightness of line 219 is
`255 - (f - 50) * 255 / 950`, the 8-bit store loses nothing (the 32-bit value
is already at most 255), `b(50) = 255`, `b(1000) = 0`, and `b(f1) ≥ b(f2)`. -/
theorem map_brightness_range (f1 f2 : Nat) (h1 : MIN_FREQ ≤ f1) (h12 : f1 ≤ f2)
    (h2 : f2 ≤ MAX_FREQ) :
    map_brightness f1 = 255 - (f1 - 50) * 255 / 950 ∧
    map_brightness f1 = brightness_wide f1 ∧
    0 ≤ map_brightness f1 ∧ map_brightness f1 ≤ 255 ∧
    map_brightness MIN_FREQ = 255 ∧ map_brightness MAX_FREQ = 0 ∧
    map_brightness f2 ≤ map_brightness f1 := by
  unfold MIN_FREQ at h1
  unfold MAX_FREQ at h2
  have e1 := map_brightness_eq h1 (by omega : f1 ≤ 1000)
  have e2 := map_brightness_eq (by omega : 50 ≤ f2) h2
  have w1 := brightness_wide_eq h1 (by omega : f1 ≤ 1000)
  refine ⟨e1, by rw [e1, w1], Nat.zero_le _, by omega, by decide, by decide, ?_⟩
  rw [e1, e2]
  have : (f1 - 50) * 255 / 950 ≤ (f2 - 50) * 255 / 950 :=
    Nat.div_le_div_right (Nat.mul_le_mul_right 255 (by omega))
  omega

/-- Witness for C2 at `f1 = 100`, `f2 = 525`. -/
theorem map_brightness_range_witness :
    MIN_FREQ ≤ 100 ∧ 100 ≤ 525 ∧ 525 ≤ MAX_FREQ ∧
    map_brightness 525 ≤ map_brightness 100 :=
  ⟨by decide, by decide, by decide,
    (map_brightness_range 100 525 (by decide) (by decide) (by decide)).2.2.2.2.2.2⟩

end Sounder

namespace Sounder

/-! ## Frame lemmas -/

@[simp] theorem set_frequency_frequency (s : State) (f : Nat) :
    (set_frequency s f).frequency = s.frequency := rfl

@[simp] theorem set_frequency_system_active (s : State) (f : Nat) :
    (set_frequency s f).system_active = s.system_active := rfl

@[simp] theorem set_frequency_paused (s : State) (f : Nat) :
    (set_frequency s f).paused = s.paused := rfl

theorem switch_block_frequency (s : State) (c p : Nat) :
    (switch_block s c p).1.frequency = s.frequency := by
  unfold switch_block
  dsimp only
  split_ifs <;> rfl

theorem reset_block_frequency (s : State) (c p : Nat) :
    (reset_block s c p).1.frequency = s.frequency := by
  unfold reset_block
  dsimp only
  split_ifs <;> rfl

theorem active_block_frequency (s : State) (adc : Nat) :
    (active_block s adc).1.frequency = s.frequency ∨
    (active_block s adc).1.frequency = map_frequency (u16 adc) := by
  unfold active_block
  dsimp only
  split_ifs
  · right; rfl
  · right; rfl
  · left; rfl

theorem ISR_TIMER1_COMPA_frequency (s : State) :
    (ISR_TIMER1_COMPA s).frequency = s.frequency := by
  unfold ISR_TIMER1_COMPA
  split <;> rfl

theorem ISR_USART_RX_plus (s : State) (h2 : s.frequency ≤ 1000) :
    (ISR_USART_RX s '+'.toNat).frequency = min (s.frequency + 10) 1000 := by
  have hu : u16 (s.frequency + 10) = s.frequency + 10 := u16_of_lt (by omega)
  unfold ISR_USART_RX
  simp only [set_frequency_frequency, if_true, hu, MAX_FREQ]
  split
  · simp only []; omega
  · simp only []; omega

theorem ISR_USART_RX_minus (s : State) (h1 : 50 ≤ s.frequency) (h2 : s.frequency ≤ 1000) :
    (ISR_USART_RX s '-'.toNat).frequency = max (s.frequency - 10) 50 := by
  have hu : sub16 s.frequency 10 = s.frequency - 10 := sub16_of_le (by omega) (by omega)
  have hc : ¬ ('-'.toNat = '+'.toNat) := by decide
  unfold ISR_USART_RX
  simp only [set_frequency_frequency, if_true, if_neg hc, hu, MIN_FREQ]
  split
  · simp only []; omega
  · simp only []; omega

theorem ISR_USART_RX_other (s : State) (c : Nat) (hp : c ≠ '+'.toNat) (hm : c ≠ '-'.toNat) :
    (ISR_USART_RX s c).frequency = s.frequency := by
  unfold ISR_USART_RX
  simp only [set_frequency_frequency, if_neg hp, if_neg hm]

theorem ISR_USART_RX_range (s : State) (c : Nat)
    (h : MIN_FREQ ≤ s.frequency ∧ s.frequency ≤ MAX_FREQ) :
    MIN_FREQ ≤ (ISR_USART_RX s c).frequency ∧ (ISR_USART_RX s c).frequency ≤ MAX_FREQ := by
  unfold MIN_FREQ MAX_FREQ at *
  by_cases hp : c = '+'.toNat
  · subst hp; rw [ISR_USART_RX_plus s h.2]; omega
  · by_cases hm : c = '-'.toNat
    · subst hm; rw [ISR_USART_RX_minus s h.1 h.2]; omega
    · rw [ISR_USART_RX_other s c hp hm]; exact h

theorem loop_iteration_range (s : State) (i : LoopInput) (hadc : i.adc ≤ 1023)
    (h : MIN_FREQ ≤ s.frequency ∧ s.frequency ≤ MAX_FREQ) :
    MIN_FREQ ≤ (loop_iteration s i).1.frequency ∧
      (loop_iteration s i).1.frequency ≤ MAX_FREQ := by
  unfold loop_iteration
  simp only []
  rcases active_block_frequency
    (reset_block (switch_block s (pin_level i.pinc_switch PC4) i.pinc_switch_settled).1
      (pin_level i.pinc_reset PC5) i.pinc_reset_settled).1 i.adc with e | e
  · rw [e, reset_block_frequency, switch_block_frequency]; exact h
  · rw [e, u16_of_lt (by omega)]
    have := map_frequency_range i.adc hadc
    exact ⟨this.2.1, this.2.2.1⟩

theorem step_range (s : State) (st : Step) (hst : st.adc_in_range = true)
    (h : MIN_FREQ ≤ s.frequency ∧ s.frequency ≤ MAX_FREQ) :
    MIN_FREQ ≤ (step s st).1.frequency ∧ (step s st).1.frequency ≤ MAX_FREQ := by
  cases st with
  | usart_rx c => exact ISR_USART_RX_range s c h
  | timer1_compa =>
    show MIN_FREQ ≤ (ISR_TIMER1_COMPA s).frequency ∧ (ISR_TIMER1_COMPA s).frequency ≤ MAX_FREQ
    rw [ISR_TIMER1_COMPA_frequency]; exact h
  | loop i =>
    have hadc : i.adc ≤ 1023 := by simpa [Step.adc_in_range] using hst
    exact loop_iteration_range s i hadc h

theorem run_range (steps : List Step) :
    ∀ s : State, (∀ st ∈ steps, Step.adc_in_range st = true) →
      (MIN_FREQ ≤ s.frequency ∧ s.frequency ≤ MAX_FREQ) →
      MIN_FREQ ≤ (run s steps).1.frequency ∧ (run s steps).1.frequency ≤ MAX_FREQ := by
  induction steps with
  | nil => intro s _ h; exact h
  | cons st rest ih =>
    intro s hall h
    have h1 := step_range s st (hall st (List.mem_cons_self _ _)) h
    exact ih (step s st).1 (fun x hx => hall x (List.mem_cons_of_mem _ hx)) h1

/-! ## Frequency invariant and serial commands -/

/-- C3: in every state reached from the startup state (frequency 440, inactive,
not paused) by any finite sequence of serial-receive interrupts (any byte),
timer interrupts and control-loop passes (any pin values, ADC reading at most
1023), the global `frequency` satisfies `50 ≤ frequency ≤ 1000`. -/
theorem frequency_invariant (pinc : Nat) (steps : List Step)
    (hadc : ∀ st ∈ steps, Step.adc_in_range st = true) :
    (startup pinc).1.frequency = 440 ∧ (startup pinc).1.system_active = 0 ∧
    (startup pinc).1.paused = 0 ∧
    MIN_FREQ ≤ (run (startup pinc).1 steps).1.frequency ∧
    (run (startup pinc).1 steps).1.frequency ≤ MAX_FREQ := by
  refine ⟨rfl, rfl, rfl, ?_⟩
  have h0 : MIN_FREQ ≤ (440 : Nat) ∧ (440 : Nat) ≤ MAX_FREQ := by decide
  exact run_range steps (startup pinc).1 hadc h0

end Sounder

namespace Sounder

/-- Witness for C3: power switch pressed, full-scale ADC reading, then a `'+'`
byte and a timer interrupt. -/
theorem frequency_invariant_witness :
    (∀ st ∈ [Step.loop ⟨32, 48, 32, 48, 1023⟩, Step.usart_rx 43, Step.timer1_compa],
      Step.adc_in_range st = true) ∧
    MIN_FREQ ≤ (run (startup 48).1
      [Step.loop ⟨32, 48, 32, 48, 1023⟩, Step.usart_rx 43, Step.timer1_compa]).1.frequency ∧
    (run (startup 48).1
      [Step.loop ⟨32, 48, 32, 48, 1023⟩, Step.usart_rx 43, Step.timer1_compa]).1.frequency
      ≤ MAX_FREQ :=
  ⟨by decide,
    (frequency_invariant 48
      [Step.loop ⟨32, 48, 32, 48, 1023⟩, Step.usart_rx 43, Step.timer1_compa]
      (by decide)).2.2.2⟩

theorem rx_repeat_plus (n : Nat) :
    ∀ s : State, s.frequency ≤ 1000 →
      (rx_repeat s '+'.toNat n).frequency = min (s.frequency + 10 * n) 1000 := by
  induction n with
  | zero => intro s h; simp only [rx_repeat]; omega
  | succ k ih =>
    intro s h
    have h1 := ISR_USART_RX_plus s h
    simp only [rx_repeat]
    rw [ih (ISR_USART_RX s '+'.toNat) (by omega), h1]
    omega

theorem rx_repeat_minus (n : Nat) :
    ∀ s : State, 50 ≤ s.frequency → s.frequency ≤ 1000 →
      (rx_repeat s '-'.toNat n).frequency = max (s.frequency - 10 * n) 50 := by
  induction n with
  | zero => intro s h _; simp only [rx_repeat]; omega
  | succ k ih =>
    intro s h1 h2
    have h3 := ISR_USART_RX_minus s h1 h2
    simp only [rx_repeat]
    rw [ih (ISR_USART_RX s '-'.toNat) (by omega) (by omega), h3]
    omega

/-- C4: from any state with `50 ≤ frequency ≤ 1000`, `n` serial-receive
interrupts with byte `'+'` leave `frequency = min (f + 10 n) 1000`, and `n`
with byte `'-'` leave `frequency = max (f - 10 n) 50` (computed in the
integers, so no wrap-around occurs).  In particular `'+'` at 1000 gives 1000,
`'-'` at 50 gives 50, ten `'+'` from the startup value 440 give 540 and fifty
more give 1000. -/
theorem rx_repeat_clamps (s : State) (n : Nat)
    (h1 : MIN_FREQ ≤ s.frequency) (h2 : s.frequency ≤ MAX_FREQ) :
    (rx_repeat s '+'.toNat n).frequency = min (s.frequency + 10 * n) MAX_FREQ ∧
    ((rx_repeat s '-'.toNat n).frequency : Int) =
      max ((s.frequency : Int) - 10 * (n : Int)) (MIN_FREQ : Int) ∧
    (s.frequency = MAX_FREQ → (rx_repeat s '+'.toNat n).frequency = MAX_FREQ) ∧
    (s.frequency = MIN_FREQ → (rx_repeat s '-'.toNat n).frequency = MIN_FREQ) ∧
    (s.frequency = 440 → (rx_repeat s '+'.toNat 10).frequency = 540 ∧
      (rx_repeat (rx_repeat s '+'.toNat 10) '+'.toNat 50).frequency = 1000) := by
  unfold MIN_FREQ at h1 ⊢
  unfold MAX_FREQ at h2 ⊢
  have hp := rx_repeat_plus n s h2
  have hm := rx_repeat_minus n s h1 h2
  refine ⟨hp, ?_, ?_, ?_, ?_⟩
  · rw [hm]; omega
  · intro h; rw [hp]; omega
  · intro h; rw [hm]; omega
  · intro h
    have h10 := rx_repeat_plus 10 s h2
    have h50 := rx_repeat_plus 50 (rx_repeat s '+'.toNat 10) (by rw [h10]; omega)
    rw [h50, h10]
    omega

/-- Witness for C4: Scenario C from the startup state. -/
theorem rx_repeat_clamps_witness :
    MIN_FREQ ≤ (startup 48).1.frequency ∧ (startup 48).1.frequency ≤ MAX_FREQ ∧
    (rx_repeat (startup 48).1 '+'.toNat 10).frequency = 540 ∧
    (rx_repeat (rx_repeat (startup 48).1 '+'.toNat 10) '+'.toNat 50).frequency = 1000 :=
  ⟨by decide, by decide,
    (rx_repeat_clamps (startup 48).1 0 (by decide) (by decide)).2.2.2.2 rfl⟩

end Sounder

namespace Sounder

/-! ## Timer compare value -/

theorem set_frequency_OCR1A {f : Nat} (s : State) (h1 : 50 ≤ f) (h2 : f ≤ 1000) :
    (set_frequency s f).OCR1A = (16000000 / (2 * f) - 1) % 65536 := by
  unfold set_frequency MIN_FREQ MAX_FREQ F_CPU
  simp only [if_neg (by omega : ¬ f < 50), if_neg (by omega : ¬ f > 1000)]
  rw [u16_of_lt (by omega : 2 * f < 65536)]
  rfl

/-- The compare value is exact (no truncation by the 16-bit register) exactly
for frequencies of at least 123 Hz. -/
theorem set_frequency_exact_iff {f : Nat} (s : State) (h1 : 50 ≤ f) (h2 : f ≤ 1000) :
    (set_frequency s f).OCR1A = 16000000 / (2 * f) - 1 ↔ 123 ≤ f := by
  rw [set_frequency_OCR1A s h1 h2]
  constructor
  · intro h
    by_contra hlt
    have hq : 16000000 / 244 ≤ 16000000 / (2 * f) :=
      Nat.div_le_div_left (by omega) (by omega)
    have hq2 : (16000000 : Nat) / 244 = 65573 := by norm_num
    have := Nat.mod_lt (16000000 / (2 * f) - 1) (by norm_num : 0 < 65536)
    omega
  · intro h
    have hq : 16000000 / (2 * f) ≤ 16000000 / 246 :=
      Nat.div_le_div_left (by omega) (by omega)
    have hq2 : (16000000 : Nat) / 246 = 65040 := by norm_num
    exact Nat.mod_eq_of_lt (by omega)

/-- C5 (evaluation at the failing input): for the target frequency 50 Hz the
exact compare value `16000000 / (2 * 50) - 1` is 159999, which does not fit
the 16-bit register; `set_frequency` leaves `OCR1A = 159999 mod 65536 = 28927`. -/
theorem set_frequency_50_wraps (s : State) :
    (set_frequency s 50).OCR1A = 28927 ∧ F_CPU / (2 * 50) - 1 = 159999 ∧
    (set_frequency s 50).OCR1A ≠ F_CPU / (2 * 50) - 1 := by
  have h : (set_frequency s 50).OCR1A = 28927 := by
    rw [set_frequency_OCR1A s (by omega) (by omega)]
  refine ⟨h, by decide, ?_⟩
  rw [h]; decide

end Sounder

namespace Sounder

/-! ## Telemetry -/

theorem telemetry_line_head (n : Nat) : (telemetry_line n).data.head? = some 'C' := by
  unfold telemetry_line
  simp [String.data_append]

theorem telemetry_line_ne {n : Nat} {str : String} (h : str.data.head? = some 'S') :
    telemetry_line n ≠ str := by
  intro e
  have h1 := telemetry_line_head n
  rw [e, h] at h1
  revert h1
  decide

theorem switch_block_no_telemetry (s : State) (c p n : Nat) :
    Event.uart_send_string (telemetry_line n) ∉ (switch_block s c p).2 := by
  have hon : telemetry_line n ≠ "System ON\r\n" := telemetry_line_ne (by decide)
  have hoff : telemetry_line n ≠ "System OFF\r\n" := telemetry_line_ne (by decide)
  unfold switch_block
  dsimp only
  split_ifs <;> simp [hon, hoff]

theorem reset_block_no_telemetry (s : State) (c p n : Nat) :
    Event.uart_send_string (telemetry_line n) ∉ (reset_block s c p).2 := by
  have hp : telemetry_line n ≠ "System Paused\r\n" := telemetry_line_ne (by decide)
  have hr : telemetry_line n ≠ "System Resumed\r\n" := telemetry_line_ne (by decide)
  unfold reset_block
  dsimp only
  split_ifs <;> simp [hp, hr]

theorem switch_block_print_counter (s : State) (c p : Nat) :
    (switch_block s c p).1.print_counter = s.print_counter := by
  unfold switch_block
  dsimp only
  split_ifs <;> rfl

theorem reset_block_print_counter (s : State) (c p : Nat) :
    (reset_block s c p).1.print_counter = s.print_counter := by
  unfold reset_block
  dsimp only
  split_ifs <;> rfl

theorem active_block_counter_lt (s : State) (adc : Nat)
    (ha : s.system_active ≠ 0 ∧ s.paused = 0) (hc : s.print_counter < 40) :
    (active_block s adc).1.print_counter = s.print_counter + 1 ∧
    ∀ n, Event.uart_send_string (telemetry_line n) ∉ (active_block s adc).2 := by
  unfold active_block
  dsimp only
  rw [if_pos ha]
  split_ifs with h
  · change s.print_counter ≥ 40 at h
    omega
  · constructor
    · show u8 (s.print_counter + 1) = s.print_counter + 1
      exact u8_of_lt (by omega)
    · intro n; simp

theorem active_block_counter_ge (s : State) (adc : Nat)
    (ha : s.system_active ≠ 0 ∧ s.paused = 0) (hc : 40 ≤ s.print_counter) :
    (active_block s adc).1.print_counter = 0 ∧
    Event.uart_send_string (telemetry_line (active_block s adc).1.frequency)
      ∈ (active_block s adc).2 := by
  unfold active_block
  dsimp only
  rw [if_pos ha]
  split_ifs with h
  · constructor
    · rfl
    · simp
  · change ¬ s.print_counter ≥ 40 at h
    omega

end Sounder

namespace Sounder

theorem loop_iteration_uart_mem (s : State) (i : LoopInput) (str : String) :
    Event.uart_send_string str ∈ (loop_iteration s i).2 ↔
      Event.uart_send_string str ∈
        (switch_block s (pin_level i.pinc_switch PC4) i.pinc_switch_settled).2 ∨
      Event.uart_send_string str ∈
        (reset_block (switch_block s (pin_level i.pinc_switch PC4) i.pinc_switch_settled).1
          (pin_level i.pinc_reset PC5) i.pinc_reset_settled).2 ∨
      Event.uart_send_string str ∈
        (active_block (reset_block
          (switch_block s (pin_level i.pinc_switch PC4) i.pinc_switch_settled).1
          (pin_level i.pinc_reset PC5) i.pinc_reset_settled).1 i.adc).2 := by
  unfold loop_iteration
  dsimp only
  simp only [List.mem_append, List.mem_cons, List.mem_singleton, List.not_mem_nil,
    or_false, false_or, reduceCtorEq, or_assoc]

theorem loop_iteration_print_counter (s : State) (i : LoopInput) :
    (loop_iteration s i).1.print_counter =
      (active_block (reset_block
        (switch_block s (pin_level i.pinc_switch PC4) i.pinc_switch_settled).1
        (pin_level i.pinc_reset PC5) i.pinc_reset_settled).1 i.adc).1.print_counter := rfl

theorem pass_counter_lt (s : State) (i : LoopInput) (ha : pass_is_active s i = true)
    (hc : s.print_counter < 40) :
    (loop_iteration s i).1.print_counter = s.print_counter + 1 ∧
    ∀ n, Event.uart_send_string (telemetry_line n) ∉ (loop_iteration s i).2 := by
  unfold pass_is_active at ha
  simp only [decide_eq_true_eq] at ha
  have hpc : (reset_block (switch_block s (pin_level i.pinc_switch PC4)
      i.pinc_switch_settled).1 (pin_level i.pinc_reset PC5)
      i.pinc_reset_settled).1.print_counter = s.print_counter := by
    rw [reset_block_print_counter, switch_block_print_counter]
  have hb := active_block_counter_lt _ i.adc ha (by rw [hpc]; exact hc)
  refine ⟨by rw [loop_iteration_print_counter, hb.1, hpc], ?_⟩
  intro n hmem
  rw [loop_iteration_uart_mem] at hmem
  rcases hmem with h | h | h
  · exact switch_block_no_telemetry _ _ _ n h
  · exact reset_block_no_telemetry _ _ _ n h
  · exact hb.2 n h

theorem pass_counter_ge (s : State) (i : LoopInput) (ha : pass_is_active s i = true)
    (hc : 40 ≤ s.print_counter) :
    (loop_iteration s i).1.print_counter = 0 ∧
    Event.uart_send_string (telemetry_line (loop_iteration s i).1.frequency)
      ∈ (loop_iteration s i).2 := by
  unfold pass_is_active at ha
  simp only [decide_eq_true_eq] at ha
  have hpc : (reset_block (switch_block s (pin_level i.pinc_switch PC4)
      i.pinc_switch_settled).1 (pin_level i.pinc_reset PC5)
      i.pinc_reset_settled).1.print_counter = s.print_counter := by
    rw [reset_block_print_counter, switch_block_print_counter]
  have hb := active_block_counter_ge _ i.adc ha (by rw [hpc]; exact hc)
  refine ⟨by rw [loop_iteration_print_counter, hb.1], ?_⟩
  rw [loop_iteration_uart_mem]
  exact Or.inr (Or.inr hb.2)

theorem loop_repeat_counter (inputs : List LoopInput) :
    ∀ s : State, all_active s inputs = true → s.print_counter ≤ 40 →
      (loop_repeat s inputs).print_counter = (s.print_counter + inputs.length) % 41 := by
  induction inputs with
  | nil => intro s _ h; simp only [loop_repeat, List.length_nil]; omega
  | cons i rest ih =>
    intro s hact hc
    simp only [all_active, Bool.and_eq_true] at hact
    simp only [loop_repeat, List.length_cons]
    by_cases h40 : s.print_counter < 40
    · have h1 := (pass_counter_lt s i hact.1 h40).1
      rw [ih _ hact.2 (by omega), h1]
      congr 1; omega
    · have h1 := (pass_counter_ge s i hact.1 (by omega)).1
      rw [ih _ hact.2 (by omega), h1]
      omega

theorem all_active_append (xs : List LoopInput) (i : LoopInput) :
    ∀ s : State, all_active s (xs ++ [i]) =
      (all_active s xs && pass_is_active (loop_repeat s xs) i) := by
  induction xs with
  | nil => intro s; simp [all_active, loop_repeat]
  | cons x rest ih => intro s; simp [all_active, loop_repeat, ih, Bool.and_assoc]

/-- Telemetry period of the code: in a run of passes that all take the branch
of line 213, started with `print_counter = 0`, pass number `k` emits the
telemetry line exactly when `k` is a multiple of 41, and the counter is 0
after each emission. -/
theorem telemetry_every_41 (s : State) (inputs : List LoopInput) (i : LoopInput)
    (h0 : s.print_counter = 0) (hact : all_active s (inputs ++ [i]) = true) :
    ((inputs.length + 1) % 41 = 0 →
      Event.uart_send_string
          (telemetry_line (loop_iteration (loop_repeat s inputs) i).1.frequency)
        ∈ (loop_iteration (loop_repeat s inputs) i).2 ∧
      (loop_iteration (loop_repeat s inputs) i).1.print_counter = 0) ∧
    ((inputs.length + 1) % 41 ≠ 0 →
      ∀ n, Event.uart_send_string (telemetry_line n)
        ∉ (loop_iteration (loop_repeat s inputs) i).2) := by
  rw [all_active_append, Bool.and_eq_true] at hact
  have hc := loop_repeat_counter inputs s hact.1 (by omega)
  rw [h0] at hc
  constructor
  · intro hk
    have := pass_counter_ge (loop_repeat s inputs) i hact.2 (by omega)
    exact ⟨this.2, this.1⟩
  · intro hk
    exact (pass_counter_lt (loop_repeat s inputs) i hact.2 (by omega)).2

end Sounder

namespace Sounder

theorem pass_frequency (s : State) (i : LoopInput) (ha : pass_is_active s i = true) :
    (loop_iteration s i).1.frequency = map_frequency (u16 i.adc) := by
  unfold pass_is_active at ha
  simp only [decide_eq_true_eq] at ha
  unfold loop_iteration active_block
  dsimp only
  rw [if_pos ha]
  split_ifs <;> rfl

set_option maxRecDepth 100000 in
theorem hold_run_active :
    all_active (startup 48).1 (List.replicate 40 hold_input ++ [hold_input]) = true := by
  decide

/-- C6 (evaluation at the failing input): from the startup state the power
switch is pressed and held, the ADC returns 512, and every pass takes the
branch of line 213.  Pass 40 emits no telemetry line and leaves the counter at
40; the first "Current frequency" line is emitted by pass 41, which resets the
counter to 0. -/
theorem telemetry_first_on_pass_41 :
    (startup 48).1.print_counter = 0 ∧
    all_active (startup 48).1 (List.replicate 40 hold_input ++ [hold_input]) = true ∧
    (∀ n, Event.uart_send_string (telemetry_line n) ∉
      (loop_iteration (loop_repeat (startup 48).1 (List.replicate 39 hold_input))
        hold_input).2) ∧
    (loop_repeat (startup 48).1 (List.replicate 40 hold_input)).print_counter = 40 ∧
    Event.uart_send_string (telemetry_line 525) ∈
      (loop_iteration (loop_repeat (startup 48).1 (List.replicate 40 hold_input))
        hold_input).2 ∧
    (loop_iteration (loop_repeat (startup 48).1 (List.replicate 40 hold_input))
      hold_input).1.print_counter = 0 := by
  have hact := hold_run_active
  have hsplit := hact
  rw [all_active_append, Bool.and_eq_true] at hsplit
  have hact40 : all_active (startup 48).1 (List.replicate 39 hold_input ++ [hold_input])
      = true := hsplit.1
  have h40 := telemetry_every_41 (startup 48).1 (List.replicate 39 hold_input) hold_input
    rfl hact40
  have h41 := telemetry_every_41 (startup 48).1 (List.replicate 40 hold_input) hold_input
    rfl hact
  have hc40 : (loop_repeat (startup 48).1 (List.replicate 40 hold_input)).print_counter
      = 40 := by
    rw [loop_repeat_counter _ _ hsplit.1 (by decide)]
    rfl
  have hf : (loop_iteration (loop_repeat (startup 48).1 (List.replicate 40 hold_input))
      hold_input).1.frequency = 525 := by
    rw [pass_frequency _ _ hsplit.2]
    decide
  have h41e := h41.1 (by simp)
  rw [hf] at h41e
  exact ⟨rfl, hact, h40.2 (by simp), hc40, h41e.1, h41e.2⟩

end Sounder

namespace Sounder

/-! ## Debouncing -/

theorem switch_block_accept (s : State) (r1 p2 : Nat) (h1 : r1 ≠ s.prev_switch_state)
    (h2 : pin_level p2 PC4 ≠ s.prev_switch_state) :
    (switch_block s r1 p2).1.prev_switch_state = pin_level p2 PC4 ∧
    (switch_block s r1 p2).1.system_active =
      (if pin_level p2 PC4 = 0 then lnot s.system_active else s.system_active) ∧
    (switch_block s r1 p2).1.paused = s.paused ∧
    (uart_output (switch_block s r1 p2).2).length =
      (if pin_level p2 PC4 = 0 then 1 else 0) := by
  unfold switch_block
  dsimp only
  rw [if_pos h1, if_pos h2]
  split_ifs <;> exact ⟨rfl, rfl, rfl, rfl⟩

theorem reset_block_accept (s : State) (r1 p2 : Nat)
    (h1 : r1 ≠ s.prev_reset_button_state)
    (h2 : pin_level p2 PC5 ≠ s.prev_reset_button_state) :
    (reset_block s r1 p2).1.prev_reset_button_state = pin_level p2 PC5 ∧
    (reset_block s r1 p2).1.paused =
      (if pin_level p2 PC5 = 0 then lnot s.paused else s.paused) ∧
    (reset_block s r1 p2).1.system_active = s.system_active ∧
    (uart_output (reset_block s r1 p2).2).length =
      (if pin_level p2 PC5 = 0 then 1 else 0) := by
  unfold reset_block
  dsimp only
  rw [if_pos h1, if_pos h2]
  split_ifs <;> exact ⟨rfl, rfl, rfl, rfl⟩

theorem switch_block_same (s : State) (r1 p2 : Nat) (h : r1 = s.prev_switch_state) :
    switch_block s r1 p2 = (s, []) := by
  unfold switch_block
  rw [if_neg (by simpa using h)]

theorem reset_block_same (s : State) (r1 p2 : Nat) (h : r1 = s.prev_reset_button_state) :
    reset_block s r1 p2 = (s, []) := by
  unfold reset_block
  rw [if_neg (by simpa using h)]

/-- C7: the debounce step of either button, for a stable level `L` (the
stored previous state), a first read `r1` and a re-read `PINC` value `p2`
(level `r2`).  If `r1 = L` the block does nothing at all (no delay, no
re-read, no output, state unchanged, whatever `p2` is).  If `r1 ≠ L` and
`r2 = L` it only waits and re-reads: nothing is sent and the whole state,
stable level included, is unchanged.  If `r1 ≠ L` and `r2 ≠ L` the stable
level becomes `r2`, the button's flag is flipped exactly when `r2 = 0` (once)
and is otherwise kept, the other flag is kept, exactly one (press) or no
(release) status line is sent, and presenting the accepted level again (any
`p3`) changes nothing further. -/
theorem debounce_step (s : State) (r1 p2 p3 : Nat) :
    (r1 = s.prev_switch_state → switch_block s r1 p2 = (s, [])) ∧
    (r1 ≠ s.prev_switch_state → pin_level p2 PC4 = s.prev_switch_state →
      switch_block s r1 p2 = (s, [Event.delay_ms 20, Event.read_PINC])) ∧
    (r1 ≠ s.prev_switch_state → pin_level p2 PC4 ≠ s.prev_switch_state →
      (switch_block s r1 p2).1.prev_switch_state = pin_level p2 PC4 ∧
      (switch_block s r1 p2).1.system_active =
        (if pin_level p2 PC4 = 0 then lnot s.system_active else s.system_active) ∧
      (switch_block s r1 p2).1.paused = s.paused ∧
      (uart_output (switch_block s r1 p2).2).length =
        (if pin_level p2 PC4 = 0 then 1 else 0) ∧
      switch_block (switch_block s r1 p2).1 (pin_level p2 PC4) p3 =
        ((switch_block s r1 p2).1, [])) ∧
    (r1 = s.prev_reset_button_state → reset_block s r1 p2 = (s, [])) ∧
    (r1 ≠ s.prev_reset_button_state → pin_level p2 PC5 = s.prev_reset_button_state →
      reset_block s r1 p2 = (s, [Event.delay_ms 20, Event.read_PINC])) ∧
    (r1 ≠ s.prev_reset_button_state → pin_level p2 PC5 ≠ s.prev_reset_button_state →
      (reset_block s r1 p2).1.prev_reset_button_state = pin_level p2 PC5 ∧
      (reset_block s r1 p2).1.paused =
        (if pin_level p2 PC5 = 0 then lnot s.paused else s.paused) ∧
      (reset_block s r1 p2).1.system_active = s.system_active ∧
      (uart_output (reset_block s r1 p2).2).length =
        (if pin_level p2 PC5 = 0 then 1 else 0) ∧
      reset_block (reset_block s r1 p2).1 (pin_level p2 PC5) p3 =
        ((reset_block s r1 p2).1, [])) := by
  refine ⟨switch_block_same s r1 p2, ?_, ?_, reset_block_same s r1 p2, ?_, ?_⟩
  · intro h1 h2
    unfold switch_block
    dsimp only
    rw [if_pos h1, if_neg (by simpa using h2)]
  · intro h1 h2
    have h := switch_block_accept s r1 p2 h1 h2
    exact ⟨h.1, h.2.1, h.2.2.1, h.2.2.2, switch_block_same _ _ p3 h.1.symm⟩
  · intro h1 h2
    unfold reset_block
    dsimp only
    rw [if_pos h1, if_neg (by simpa using h2)]
  · intro h1 h2
    have h := reset_block_accept s r1 p2 h1 h2
    exact ⟨h.1, h.2.1, h.2.2.1, h.2.2.2, reset_block_same _ _ p3 h.1.symm⟩

end Sounder

namespace Sounder

/-- Witness for C7 on the startup state with both pins high (stable levels 1
and 1): an unchanged first read, a glitch that reverts, and a sustained press,
for each button. -/
theorem debounce_step_witness :
    ((1 = (startup 48).1.prev_switch_state) ∧
      switch_block (startup 48).1 1 0 = ((startup 48).1, [])) ∧
    ((0 ≠ (startup 48).1.prev_switch_state) ∧
      (pin_level 48 PC4 = (startup 48).1.prev_switch_state) ∧
      switch_block (startup 48).1 0 48 =
        ((startup 48).1, [Event.delay_ms 20, Event.read_PINC])) ∧
    ((0 ≠ (startup 48).1.prev_switch_state) ∧
      (pin_level 0 PC4 ≠ (startup 48).1.prev_switch_state) ∧
      (switch_block (startup 48).1 0 0).1.prev_switch_state = pin_level 0 PC4) ∧
    ((1 = (startup 48).1.prev_reset_button_state) ∧
      reset_block (startup 48).1 1 0 = ((startup 48).1, [])) ∧
    ((0 ≠ (startup 48).1.prev_reset_button_state) ∧
      (pin_level 48 PC5 = (startup 48).1.prev_reset_button_state) ∧
      reset_block (startup 48).1 0 48 =
        ((startup 48).1, [Event.delay_ms 20, Event.read_PINC])) ∧
    ((0 ≠ (startup 48).1.prev_reset_button_state) ∧
      (pin_level 0 PC5 ≠ (startup 48).1.prev_reset_button_state) ∧
      (reset_block (startup 48).1 0 0).1.prev_reset_button_state = pin_level 0 PC5) :=
  ⟨⟨by decide, (debounce_step (startup 48).1 1 0 0).1 (by decide)⟩,
   ⟨by decide, by decide,
     (debounce_step (startup 48).1 0 48 0).2.1 (by decide) (by decide)⟩,
   ⟨by decide, by decide,
     ((debounce_step (startup 48).1 0 0 0).2.2.1 (by decide) (by decide)).1⟩,
   ⟨by decide, (debounce_step (startup 48).1 1 0 0).2.2.2.1 (by decide)⟩,
   ⟨by decide, by decide,
     (debounce_step (startup 48).1 0 48 0).2.2.2.2.1 (by decide) (by decide)⟩,
   ⟨by decide, by decide,
     ((debounce_step (startup 48).1 0 0 0).2.2.2.2.2 (by decide) (by decide)).1⟩⟩

/-! ## Startup levels of the debouncers -/

/-- C8 (evaluation at the failing input): at startup `PINC` reads 16, i.e.
the power-switch pin PC4 is high and the reset-button pin PC5 is low, and the
pins keep these levels.  The power switch's stable level is the level read
(1), but the reset button's stable level is the constant 1 of line 131, not
the level read (0); the first pass therefore accepts a press of the reset
button, sets `paused` and sends "System Paused". -/
theorem reset_button_startup_level :
    (startup 16).1.prev_switch_state = pin_level 16 PC4 ∧
    pin_level 16 PC5 = 0 ∧
    (startup 16).1.prev_reset_button_state = 1 ∧
    (startup 16).1.paused = 0 ∧
    (loop_iteration (startup 16).1 ⟨16, 16, 16, 16, 0⟩).1.paused = 1 ∧
    uart_output (loop_iteration (startup 16).1 ⟨16, 16, 16, 16, 0⟩).2 =
      ["System Paused\r\n"] := by
  decide

end Sounder

namespace Sounder

/-! ## Scenario D -/

theorem pass_duty_cycle (s : State) (i : LoopInput) (ha : pass_is_active s i = true) :
    (loop_iteration s i).1.OCR0A = u8 (map_brightness (map_frequency (u16 i.adc))) := by
  unfold pass_is_active at ha
  simp only [decide_eq_true_eq] at ha
  unfold loop_iteration active_block
  dsimp only
  rw [if_pos ha]
  split_ifs <;> rfl

/-- C9 (counterexample): the pass from the startup state in which the power
switch is pressed is active and unpaused and samples 512; it sets the target
frequency to 525 but the duty-cycle register to 128, not 127
(`(525 - 50) * 255 / 950 = 127` and `255 - 127 = 128`). -/
theorem scenario_D_duty_cycle_not_127 :
    pass_is_active (startup 48).1 hold_input = true ∧ hold_input.adc = 512 ∧
    (loop_iteration (startup 48).1 hold_input).1.frequency = 525 ∧
    (loop_iteration (startup 48).1 hold_input).1.OCR0A = 128 ∧
    ¬ ((loop_iteration (startup 48).1 hold_input).1.frequency = 525 ∧
       (loop_iteration (startup 48).1 hold_input).1.OCR0A = 127) := by
  decide

/-- C9 (amended): every active, unpaused control-loop pass whose analog
reading is 512 sets the target frequency to 525 and the duty-cycle register
to 128. -/
theorem scenario_D (s : State) (i : LoopInput) (ha : pass_is_active s i = true)
    (hadc : i.adc = 512) :
    (loop_iteration s i).1.frequency = 525 ∧ (loop_iteration s i).1.OCR0A = 128 ∧
    map_brightness 525 = 128 := by
  rw [pass_frequency s i ha, pass_duty_cycle s i ha, hadc]
  decide

/-- Witness for the amended C9: the pass in which the switch is pressed, from
the startup state. -/
theorem scenario_D_witness :
    pass_is_active (startup 48).1 hold_input = true ∧ hold_input.adc = 512 ∧
    (loop_iteration (startup 48).1 hold_input).1.frequency = 525 ∧
    (loop_iteration (startup 48).1 hold_input).1.OCR0A = 128 :=
  ⟨by decide, rfl,
    (scenario_D (startup 48).1 hold_input (by decide) rfl).1,
    (scenario_D (startup 48).1 hold_input (by decide) rfl).2.1⟩

end Sounder

namespace Sounder

/-! ## Bit operations on the ports -/

theorem cleared_bit (x b : Nat) (hb : b < 8) :
    (u8 (x &&& (0xFFFF ^^^ (1 <<< b)))).testBit b = false := by
  unfold u8
  rw [Nat.testBit_mod_two_pow, Nat.testBit_and, Nat.testBit_xor]
  have h1 : (1 <<< b).testBit b = true := by
    rw [Nat.one_shiftLeft, Nat.testBit_two_pow_self]
  have h2 : (65535 : Nat).testBit b = true := by
    interval_cases b <;> decide
  simp [h1, h2]

theorem raised_bit (x b : Nat) (hb : b < 8) :
    (u8 (x ||| (1 <<< b))).testBit b = true := by
  unfold u8
  rw [Nat.testBit_mod_two_pow, Nat.testBit_or]
  have h1 : (1 <<< b).testBit b = true := by
    rw [Nat.one_shiftLeft, Nat.testBit_two_pow_self]
  simp [h1, hb]

theorem pin_level_le_one (p b : Nat) : pin_level p b ≤ 1 := by
  unfold pin_level
  rw [Nat.shiftRight_eq_div_pow, Nat.one_shiftLeft]
  have h : p &&& 2 ^ b ≤ 2 ^ b := Nat.and_le_right
  calc (p &&& 2 ^ b) / 2 ^ b ≤ 2 ^ b / 2 ^ b := Nat.div_le_div_right h
    _ = 1 := Nat.div_self (Nat.two_pow_pos b)

/-! ## Frames of the three blocks -/

theorem reset_block_frame (s : State) (c p : Nat) :
    (reset_block s c p).1.frequency = s.frequency ∧
    (reset_block s c p).1.system_active = s.system_active ∧
    (reset_block s c p).1.prev_switch_state = s.prev_switch_state ∧
    (reset_block s c p).1.print_counter = s.print_counter ∧
    (reset_block s c p).1.PORTB = s.PORTB ∧
    (reset_block s c p).1.PORTC = s.PORTC ∧
    (reset_block s c p).1.PORTD = s.PORTD ∧
    (reset_block s c p).1.TIMSK1 = s.TIMSK1 ∧
    (reset_block s c p).1.OCR1A = s.OCR1A ∧
    (reset_block s c p).1.OCR0A = s.OCR0A := by
  unfold reset_block
  dsimp only
  split_ifs <;> exact ⟨rfl, rfl, rfl, rfl, rfl, rfl, rfl, rfl, rfl, rfl⟩

theorem active_block_idle (s : State) (adc : Nat) (h : s.system_active = 0 ∨ s.paused ≠ 0) :
    active_block s adc = (s, []) := by
  unfold active_block
  have hn : ¬ (s.system_active ≠ 0 ∧ s.paused = 0) := by
    rcases h with h | h
    · exact fun hc => hc.1 h
    · exact fun hc => h hc.2
  rw [if_neg hn]

theorem switch_block_power_off (s : State) (r1 p2 : Nat) (hact : s.system_active ≠ 0)
    (hprev : s.prev_switch_state ≠ 0) (h1 : r1 = 0) (h2 : pin_level p2 PC4 = 0) :
    switch_block s r1 p2 =
      ({ s with
          system_active := 0
          PORTC := u8 (s.PORTC &&& (0xFFFF ^^^ (1 <<< PC3)))
          TIMSK1 := u8 (s.TIMSK1 &&& (0xFFFF ^^^ (1 <<< OCIE1A)))
          OCR0A := 0
          PORTB := u8 (s.PORTB &&& (0xFFFF ^^^ (1 <<< PB2)))
          prev_switch_state := 0 },
        [Event.delay_ms 20, Event.read_PINC, Event.uart_send_string "System OFF\r\n"]) := by
  have hl : lnot s.system_active = 0 := by unfold lnot; rw [if_neg hact]
  unfold switch_block
  dsimp only
  rw [h2, h1, if_pos (Ne.symm hprev), if_pos (Ne.symm hprev), if_pos rfl, hl]
  rw [if_neg (by simp)]
  rfl

/-! ## Power-off -/

/-- C10: from any state with `system_active` set, whatever `paused` is, a
control-loop pass in which the power switch is confirmed low (stable level
non-zero, first read and re-read both 0) ends with `system_active = 0`, the
status-LED bit `PC3` of `PORTC` clear, the compare-interrupt enable bit
`OCIE1A` of `TIMSK1` clear, the duty-cycle register `OCR0A = 0` and the sound
pin bit `PB2` of `PORTB` clear; "System OFF" is the first line sent; the
analog-mapping block does not run in that pass (no ADC read, target frequency
and timer compare register unchanged, telemetry counter unchanged). -/
theorem power_off (s : State) (i : LoopInput) (hact : s.system_active ≠ 0)
    (hprev : s.prev_switch_state ≠ 0) (h1 : pin_level i.pinc_switch PC4 = 0)
    (h2 : pin_level i.pinc_switch_settled PC4 = 0) :
    (loop_iteration s i).1.system_active = 0 ∧
    (loop_iteration s i).1.PORTC.testBit PC3 = false ∧
    (loop_iteration s i).1.TIMSK1.testBit OCIE1A = false ∧
    (loop_iteration s i).1.OCR0A = 0 ∧
    (loop_iteration s i).1.PORTB.testBit PB2 = false ∧
    (uart_output (loop_iteration s i).2).head? = some "System OFF\r\n" ∧
    Event.adc_read ∉ (loop_iteration s i).2 ∧
    pass_is_active s i = false ∧
    (loop_iteration s i).1.frequency = s.frequency ∧
    (loop_iteration s i).1.OCR1A = s.OCR1A ∧
    (loop_iteration s i).1.print_counter = s.print_counter := by
  have hsw := switch_block_power_off s (pin_level i.pinc_switch PC4)
    i.pinc_switch_settled hact hprev h1 h2
  have hfr := reset_block_frame (switch_block s (pin_level i.pinc_switch PC4)
    i.pinc_switch_settled).1 (pin_level i.pinc_reset PC5) i.pinc_reset_settled
  have hidle := active_block_idle (reset_block (switch_block s (pin_level i.pinc_switch PC4)
    i.pinc_switch_settled).1 (pin_level i.pinc_reset PC5) i.pinc_reset_settled).1 i.adc
    (Or.inl (by rw [hfr.2.1, hsw]))
  have hst : (loop_iteration s i).1 = (reset_block (switch_block s
      (pin_level i.pinc_switch PC4) i.pinc_switch_settled).1 (pin_level i.pinc_reset PC5)
      i.pinc_reset_settled).1 := by
    unfold loop_iteration
    dsimp only
    rw [hidle]
  have hev : (loop_iteration s i).2 = [Event.read_PINC, Event.read_PINC] ++
      [Event.delay_ms 20, Event.read_PINC, Event.uart_send_string "System OFF\r\n"] ++
      (reset_block (switch_block s (pin_level i.pinc_switch PC4) i.pinc_switch_settled).1
        (pin_level i.pinc_reset PC5) i.pinc_reset_settled).2 ++ [] ++ [Event.delay_ms 50] := by
    unfold loop_iteration
    dsimp only
    rw [hidle, hsw]
  obtain ⟨f1, f2, f3, f4, f5, f6, f7, f8, f9, f10⟩ := hfr
  refine ⟨?_, ?_, ?_, ?_, ?_, ?_, ?_, ?_, ?_, ?_, ?_⟩
  · rw [hst, f2, hsw]
  · rw [hst, f6, hsw]; exact cleared_bit _ _ (by decide)
  · rw [hst, f8, hsw]; exact cleared_bit _ _ (by decide)
  · rw [hst, f10, hsw]
  · rw [hst, f5, hsw]; exact cleared_bit _ _ (by decide)
  · rw [hev]; rfl
  · rw [hev]
    have hno : Event.adc_read ∉ (reset_block (switch_block s (pin_level i.pinc_switch PC4)
        i.pinc_switch_settled).1 (pin_level i.pinc_reset PC5) i.pinc_reset_settled).2 := by
      unfold reset_block
      dsimp only
      split_ifs <;> simp
    simp [hno]
  · unfold pass_is_active
    dsimp only
    rw [f2, hsw]
    simp
  · rw [hst, f1, hsw]
  · rw [hst, f9, hsw]
  · rw [hst, f4, hsw]

end Sounder

namespace Sounder

/-- Witness for C10: power-off from a reachable state that is active and
paused, with the LED lit, a non-zero duty cycle and the sound pin high. -/
theorem power_off_witness :
    active_paused_state.system_active ≠ 0 ∧
    active_paused_state.prev_switch_state ≠ 0 ∧
    pin_level switch_low_input.pinc_switch PC4 = 0 ∧
    pin_level switch_low_input.pinc_switch_settled PC4 = 0 ∧
    active_paused_state.paused = 1 ∧
    active_paused_state.PORTB.testBit PB2 = true ∧
    active_paused_state.PORTC.testBit PC3 = true ∧
    active_paused_state.OCR0A = 128 ∧
    (loop_iteration active_paused_state switch_low_input).1.system_active = 0 ∧
    (loop_iteration active_paused_state switch_low_input).1.OCR0A = 0 :=
  ⟨by decide, by decide, by decide, by decide, by decide, by decide, by decide, by decide,
    (power_off active_paused_state switch_low_input (by decide) (by decide) (by decide)
      (by decide)).1,
    (power_off active_paused_state switch_low_input (by decide) (by decide) (by decide)
      (by decide)).2.2.2.1⟩

end Sounder

namespace Sounder

/-! ## Buttons that stay at their initial stable level -/

theorem uart_output_append (a b : List Event) :
    uart_output (a ++ b) = uart_output a ++ uart_output b := by
  induction a with
  | nil => rfl
  | cons e rest ih =>
    cases e <;> simp [uart_output, ih]

theorem loop_iteration_uart_output (s : State) (i : LoopInput) :
    uart_output (loop_iteration s i).2 =
      uart_output (switch_block s (pin_level i.pinc_switch PC4) i.pinc_switch_settled).2 ++
      uart_output (reset_block
        (switch_block s (pin_level i.pinc_switch PC4) i.pinc_switch_settled).1
        (pin_level i.pinc_reset PC5) i.pinc_reset_settled).2 ++
      uart_output (active_block (reset_block
        (switch_block s (pin_level i.pinc_switch PC4) i.pinc_switch_settled).1
        (pin_level i.pinc_reset PC5) i.pinc_reset_settled).1 i.adc).2 := by
  unfold loop_iteration
  dsimp only
  simp [uart_output_append, uart_output]

theorem switch_block_uart (s : State) (c p : Nat) (str : String)
    (h : str ∈ uart_output (switch_block s c p).2) :
    str = "System ON\r\n" ∨ str = "System OFF\r\n" := by
  unfold switch_block at h
  dsimp only at h
  split_ifs at h <;> simp [uart_output] at h <;> simp [h]

theorem reset_block_uart (s : State) (c p : Nat) (str : String)
    (h : str ∈ uart_output (reset_block s c p).2) :
    str = "System Paused\r\n" ∨ str = "System Resumed\r\n" := by
  unfold reset_block at h
  dsimp only at h
  split_ifs at h <;> simp [uart_output] at h <;> simp [h]

theorem active_block_uart (s : State) (adc : Nat) (str : String)
    (h : str ∈ uart_output (active_block s adc).2) : ∃ n, str = telemetry_line n := by
  unfold active_block at h
  dsimp only at h
  split_ifs at h <;> simp [uart_output] at h
  exact ⟨_, h⟩

theorem switch_block_frame (s : State) (c p : Nat) :
    (switch_block s c p).1.frequency = s.frequency ∧
    (switch_block s c p).1.paused = s.paused ∧
    (switch_block s c p).1.prev_reset_button_state = s.prev_reset_button_state ∧
    (switch_block s c p).1.print_counter = s.print_counter ∧
    (switch_block s c p).1.PORTD = s.PORTD ∧
    (switch_block s c p).1.OCR1A = s.OCR1A := by
  unfold switch_block
  dsimp only
  split_ifs <;> exact ⟨rfl, rfl, rfl, rfl, rfl, rfl⟩

theorem active_block_frame (s : State) (adc : Nat) :
    (active_block s adc).1.system_active = s.system_active ∧
    (active_block s adc).1.paused = s.paused ∧
    (active_block s adc).1.prev_switch_state = s.prev_switch_state ∧
    (active_block s adc).1.prev_reset_button_state = s.prev_reset_button_state ∧
    (active_block s adc).1.PORTB = s.PORTB ∧
    (active_block s adc).1.PORTC = s.PORTC ∧
    (active_block s adc).1.PORTD = s.PORTD ∧
    (active_block s adc).1.TIMSK1 = s.TIMSK1 := by
  unfold active_block
  dsimp only
  split_ifs <;> exact ⟨rfl, rfl, rfl, rfl, rfl, rfl, rfl, rfl⟩

theorem ISR_USART_RX_frame (s : State) (c : Nat) :
    (ISR_USART_RX s c).system_active = s.system_active ∧
    (ISR_USART_RX s c).paused = s.paused ∧
    (ISR_USART_RX s c).prev_switch_state = s.prev_switch_state ∧
    (ISR_USART_RX s c).prev_reset_button_state = s.prev_reset_button_state ∧
    (ISR_USART_RX s c).print_counter = s.print_counter ∧
    (ISR_USART_RX s c).PORTB = s.PORTB ∧
    (ISR_USART_RX s c).PORTC = s.PORTC ∧
    (ISR_USART_RX s c).PORTD = s.PORTD ∧
    (ISR_USART_RX s c).TIMSK1 = s.TIMSK1 ∧
    (ISR_USART_RX s c).OCR0A = s.OCR0A := by
  unfold ISR_USART_RX set_frequency
  dsimp only
  split_ifs <;> exact ⟨rfl, rfl, rfl, rfl, rfl, rfl, rfl, rfl, rfl, rfl⟩

theorem ISR_TIMER1_COMPA_frame (s : State) :
    (ISR_TIMER1_COMPA s).frequency = s.frequency ∧
    (ISR_TIMER1_COMPA s).system_active = s.system_active ∧
    (ISR_TIMER1_COMPA s).paused = s.paused ∧
    (ISR_TIMER1_COMPA s).prev_switch_state = s.prev_switch_state ∧
    (ISR_TIMER1_COMPA s).prev_reset_button_state = s.prev_reset_button_state ∧
    (ISR_TIMER1_COMPA s).print_counter = s.print_counter ∧
    (ISR_TIMER1_COMPA s).PORTC = s.PORTC ∧
    (ISR_TIMER1_COMPA s).PORTD = s.PORTD ∧
    (ISR_TIMER1_COMPA s).TIMSK1 = s.TIMSK1 ∧
    (ISR_TIMER1_COMPA s).OCR1A = s.OCR1A ∧
    (ISR_TIMER1_COMPA s).OCR0A = s.OCR0A := by
  unfold ISR_TIMER1_COMPA
  split_ifs <;> exact ⟨rfl, rfl, rfl, rfl, rfl, rfl, rfl, rfl, rfl, rfl, rfl⟩

end Sounder

namespace Sounder

theorem step_switch_quiet (s : State) (st : Step) (L : Nat)
    (hI : s.system_active = 0 ∧ s.prev_switch_state = L)
    (hst : Step.switch_level_is L st = true) :
    ((step s st).1.system_active = 0 ∧ (step s st).1.prev_switch_state = L) ∧
    "System ON\r\n" ∉ uart_output (step s st).2 ∧
    "System OFF\r\n" ∉ uart_output (step s st).2 := by
  cases st with
  | usart_rx c =>
    have f := ISR_USART_RX_frame s c
    exact ⟨⟨f.1.trans hI.1, f.2.2.1.trans hI.2⟩, by simp [step, uart_output],
      by simp [step, uart_output]⟩
  | timer1_compa =>
    have f := ISR_TIMER1_COMPA_frame s
    exact ⟨⟨f.2.1.trans hI.1, f.2.2.2.1.trans hI.2⟩, by simp [step, uart_output],
      by simp [step, uart_output]⟩
  | loop i =>
    have hl : pin_level i.pinc_switch PC4 = s.prev_switch_state := by
      have : pin_level i.pinc_switch PC4 = L := by simpa [Step.switch_level_is] using hst
      rw [this, hI.2]
    have hsw := switch_block_same s (pin_level i.pinc_switch PC4) i.pinc_switch_settled hl
    have hfr := reset_block_frame s (pin_level i.pinc_reset PC5) i.pinc_reset_settled
    have hidle := active_block_idle (reset_block s (pin_level i.pinc_reset PC5)
      i.pinc_reset_settled).1 i.adc (Or.inl (hfr.2.1.trans hI.1))
    have hst1 : (loop_iteration s i).1 =
        (reset_block s (pin_level i.pinc_reset PC5) i.pinc_reset_settled).1 := by
      unfold loop_iteration
      dsimp only
      rw [hsw, hidle]
    have hout : uart_output (loop_iteration s i).2 =
        uart_output (reset_block s (pin_level i.pinc_reset PC5) i.pinc_reset_settled).2 := by
      rw [loop_iteration_uart_output, hsw, hidle]
      simp [uart_output]
    show ((loop_iteration s i).1.system_active = 0 ∧
        (loop_iteration s i).1.prev_switch_state = L) ∧
      "System ON\r\n" ∉ uart_output (loop_iteration s i).2 ∧
      "System OFF\r\n" ∉ uart_output (loop_iteration s i).2
    rw [hst1, hout]
    refine ⟨⟨hfr.2.1.trans hI.1, hfr.2.2.1.trans hI.2⟩, ?_, ?_⟩
    · intro hm
      have := reset_block_uart _ _ _ _ hm
      revert this; decide
    · intro hm
      have := reset_block_uart _ _ _ _ hm
      revert this; decide

theorem run_uart_output_cons (s : State) (st : Step) (rest : List Step) :
    uart_output (run s (st :: rest)).2 =
      uart_output (step s st).2 ++ uart_output (run (step s st).1 rest).2 := by
  simp only [run]
  exact uart_output_append _ _

theorem run_switch_quiet (L : Nat) (steps : List Step) :
    ∀ s : State, (s.system_active = 0 ∧ s.prev_switch_state = L) →
      (∀ st ∈ steps, Step.switch_level_is L st = true) →
      ((run s steps).1.system_active = 0 ∧ (run s steps).1.prev_switch_state = L) ∧
      "System ON\r\n" ∉ uart_output (run s steps).2 ∧
      "System OFF\r\n" ∉ uart_output (run s steps).2 := by
  induction steps with
  | nil => intro s hI _; exact ⟨hI, by simp [run, uart_output], by simp [run, uart_output]⟩
  | cons st rest ih =>
    intro s hI hall
    have h1 := step_switch_quiet s st L hI (hall st (List.mem_cons_self _ _))
    have h2 := ih (step s st).1 h1.1 (fun x hx => hall x (List.mem_cons_of_mem _ hx))
    refine ⟨h2.1, ?_, ?_⟩
    · rw [run_uart_output_cons, List.mem_append]
      exact fun h => h.elim h1.2.1 h2.2.1
    · rw [run_uart_output_cons, List.mem_append]
      exact fun h => h.elim h1.2.2 h2.2.2

/-- For the power switch the initial stable level is the level read at
line 152, and if every later first read of the
switch pin shows that level, then after any sequence of interrupts and
control-loop passes the stable level is unchanged, `system_active` is still 0
and neither "System ON" nor "System OFF" has been sent. -/
theorem power_switch_quiet_at_startup_level (pinc : Nat) (steps : List Step)
    (h : ∀ st ∈ steps, Step.switch_level_is (pin_level pinc PC4) st = true) :
    (startup pinc).1.prev_switch_state = pin_level pinc PC4 ∧
    (run (startup pinc).1 steps).1.prev_switch_state = pin_level pinc PC4 ∧
    (run (startup pinc).1 steps).1.system_active = 0 ∧
    "System ON\r\n" ∉ uart_output (run (startup pinc).1 steps).2 ∧
    "System OFF\r\n" ∉ uart_output (run (startup pinc).1 steps).2 := by
  have hr := run_switch_quiet (pin_level pinc PC4) steps (startup pinc).1 ⟨rfl, rfl⟩ h
  exact ⟨rfl, hr.1.2, hr.1.1, hr.2.1, hr.2.2⟩

end Sounder

namespace Sounder

theorem step_reset_quiet (s : State) (st : Step) (L : Nat)
    (hI : s.paused = 0 ∧ s.prev_reset_button_state = L)
    (hst : Step.reset_level_is L st = true) :
    ((step s st).1.paused = 0 ∧ (step s st).1.prev_reset_button_state = L) ∧
    "System Paused\r\n" ∉ uart_output (step s st).2 ∧
    "System Resumed\r\n" ∉ uart_output (step s st).2 := by
  cases st with
  | usart_rx c =>
    have f := ISR_USART_RX_frame s c
    exact ⟨⟨f.2.1.trans hI.1, f.2.2.2.1.trans hI.2⟩, by simp [step, uart_output],
      by simp [step, uart_output]⟩
  | timer1_compa =>
    have f := ISR_TIMER1_COMPA_frame s
    exact ⟨⟨f.2.2.1.trans hI.1, f.2.2.2.2.1.trans hI.2⟩, by simp [step, uart_output],
      by simp [step, uart_output]⟩
  | loop i =>
    have hsf := switch_block_frame s (pin_level i.pinc_switch PC4) i.pinc_switch_settled
    have hl : pin_level i.pinc_reset PC5 =
        (switch_block s (pin_level i.pinc_switch PC4)
          i.pinc_switch_settled).1.prev_reset_button_state := by
      have : pin_level i.pinc_reset PC5 = L := by simpa [Step.reset_level_is] using hst
      rw [this, hsf.2.2.1, hI.2]
    have hrs := reset_block_same (switch_block s (pin_level i.pinc_switch PC4)
      i.pinc_switch_settled).1 (pin_level i.pinc_reset PC5) i.pinc_reset_settled hl
    have haf := active_block_frame (switch_block s (pin_level i.pinc_switch PC4)
      i.pinc_switch_settled).1 i.adc
    have hst1 : (loop_iteration s i).1 = (active_block (switch_block s
        (pin_level i.pinc_switch PC4) i.pinc_switch_settled).1 i.adc).1 := by
      unfold loop_iteration
      dsimp only
      rw [hrs]
    have hout : uart_output (loop_iteration s i).2 =
        uart_output (switch_block s (pin_level i.pinc_switch PC4)
          i.pinc_switch_settled).2 ++
        uart_output (active_block (switch_block s (pin_level i.pinc_switch PC4)
          i.pinc_switch_settled).1 i.adc).2 := by
      rw [loop_iteration_uart_output, hrs]
      simp [uart_output]
    show ((loop_iteration s i).1.paused = 0 ∧
        (loop_iteration s i).1.prev_reset_button_state = L) ∧
      "System Paused\r\n" ∉ uart_output (loop_iteration s i).2 ∧
      "System Resumed\r\n" ∉ uart_output (loop_iteration s i).2
    rw [hst1, hout]
    refine ⟨⟨haf.2.1.trans (hsf.2.1.trans hI.1),
      haf.2.2.2.1.trans (hsf.2.2.1.trans hI.2)⟩, ?_, ?_⟩
    · intro hm
      rcases List.mem_append.mp hm with h | h
      · have := switch_block_uart _ _ _ _ h
        revert this; decide
      · obtain ⟨n, hn⟩ := active_block_uart _ _ _ h
        exact telemetry_line_ne (by decide) hn.symm
    · intro hm
      rcases List.mem_append.mp hm with h | h
      · have := switch_block_uart _ _ _ _ h
        revert this; decide
      · obtain ⟨n, hn⟩ := active_block_uart _ _ _ h
        exact telemetry_line_ne (by decide) hn.symm

theorem run_reset_quiet (L : Nat) (steps : List Step) :
    ∀ s : State, (s.paused = 0 ∧ s.prev_reset_button_state = L) →
      (∀ st ∈ steps, Step.reset_level_is L st = true) →
      ((run s steps).1.paused = 0 ∧ (run s steps).1.prev_reset_button_state = L) ∧
      "System Paused\r\n" ∉ uart_output (run s steps).2 ∧
      "System Resumed\r\n" ∉ uart_output (run s steps).2 := by
  induction steps with
  | nil => intro s hI _; exact ⟨hI, by simp [run, uart_output], by simp [run, uart_output]⟩
  | cons st rest ih =>
    intro s hI hall
    have h1 := step_reset_quiet s st L hI (hall st (List.mem_cons_self _ _))
    have h2 := ih (step s st).1 h1.1 (fun x hx => hall x (List.mem_cons_of_mem _ hx))
    refine ⟨h2.1, ?_, ?_⟩
    · rw [run_uart_output_cons, List.mem_append]
      exact fun h => h.elim h1.2.1 h2.2.1
    · rw [run_uart_output_cons, List.mem_append]
      exact fun h => h.elim h1.2.2 h2.2.2

/-- What the code gives for the reset button: its initial stable level is the
constant 1 whatever the pin shows at startup, and if every first read of the
reset pin shows level 1, then after any sequence of interrupts and
control-loop passes the stable level is still 1, `paused` is still 0 and
neither "System Paused" nor "System Resumed" has been sent. -/
theorem reset_button_quiet_at_level_one (pinc : Nat) (steps : List Step)
    (h : ∀ st ∈ steps, Step.reset_level_is 1 st = true) :
    (startup pinc).1.prev_reset_button_state = 1 ∧
    (run (startup pinc).1 steps).1.prev_reset_button_state = 1 ∧
    (run (startup pinc).1 steps).1.paused = 0 ∧
    "System Paused\r\n" ∉ uart_output (run (startup pinc).1 steps).2 ∧
    "System Resumed\r\n" ∉ uart_output (run (startup pinc).1 steps).2 := by
  have hr := run_reset_quiet 1 steps (startup pinc).1 ⟨rfl, rfl⟩ h
  exact ⟨rfl, hr.1.2, hr.1.1, hr.2.1, hr.2.2⟩

end Sounder

namespace Sounder

/-! ## Tone emitter -/

theorem toggled_bit (x j : Nat) (hj : j < 8) :
    (u8 (x ^^^ (1 <<< PB2))).testBit j = (x.testBit j ^^ decide (PB2 = j)) := by
  unfold u8
  rw [Nat.testBit_mod_two_pow, Nat.testBit_xor, Nat.one_shiftLeft, Nat.testBit_two_pow]
  simp [hj]

theorem ISR_TIMER1_COMPA_active (s : State) (h : s.system_active ≠ 0 ∧ s.paused = 0) :
    (ISR_TIMER1_COMPA s).PORTB = u8 (s.PORTB ^^^ (1 <<< PB2)) := by
  unfold ISR_TIMER1_COMPA
  rw [if_pos h]

/-- C11: the timer compare-match handler.  When `system_active` is set and
`paused` is clear it inverts bit `PB2` of `PORTB`; otherwise it leaves the
whole state as it is.  In both cases every other bit of the 8-bit `PORTB`,
`PORTC`, `PORTD`, the target frequency, both flags, the duty-cycle register,
the telemetry counter and the timer registers are unchanged, and two
consecutive firings in an active, unpaused state restore the level of the
sound pin. -/
theorem timer_handler (s : State) :
    (s.system_active ≠ 0 ∧ s.paused = 0 →
      (ISR_TIMER1_COMPA s).PORTB.testBit PB2 = !s.PORTB.testBit PB2) ∧
    (¬ (s.system_active ≠ 0 ∧ s.paused = 0) → ISR_TIMER1_COMPA s = s) ∧
    (∀ j, j < 8 → j ≠ PB2 →
      (ISR_TIMER1_COMPA s).PORTB.testBit j = s.PORTB.testBit j) ∧
    (ISR_TIMER1_COMPA s).PORTC = s.PORTC ∧
    (ISR_TIMER1_COMPA s).PORTD = s.PORTD ∧
    (ISR_TIMER1_COMPA s).frequency = s.frequency ∧
    (ISR_TIMER1_COMPA s).system_active = s.system_active ∧
    (ISR_TIMER1_COMPA s).paused = s.paused ∧
    (ISR_TIMER1_COMPA s).OCR0A = s.OCR0A ∧
    (ISR_TIMER1_COMPA s).print_counter = s.print_counter ∧
    (ISR_TIMER1_COMPA s).OCR1A = s.OCR1A ∧
    (ISR_TIMER1_COMPA s).TIMSK1 = s.TIMSK1 ∧
    (s.system_active ≠ 0 ∧ s.paused = 0 →
      (ISR_TIMER1_COMPA (ISR_TIMER1_COMPA s)).PORTB.testBit PB2 = s.PORTB.testBit PB2) := by
  have f := ISR_TIMER1_COMPA_frame s
  have hact := ISR_TIMER1_COMPA_active s
  have hflip : s.system_active ≠ 0 ∧ s.paused = 0 →
      (ISR_TIMER1_COMPA s).PORTB.testBit PB2 = !s.PORTB.testBit PB2 := by
    intro h
    rw [hact h, toggled_bit _ _ (by decide)]
    simp
  refine ⟨hflip, ?_, ?_, f.2.2.2.2.2.2.1, f.2.2.2.2.2.2.2.1, f.1, f.2.1, f.2.2.1,
    f.2.2.2.2.2.2.2.2.2.2, f.2.2.2.2.2.1, f.2.2.2.2.2.2.2.2.2.1, f.2.2.2.2.2.2.2.2.1, ?_⟩
  · intro h
    unfold ISR_TIMER1_COMPA
    rw [if_neg h]
  · intro j hj hne
    by_cases h : s.system_active ≠ 0 ∧ s.paused = 0
    · rw [hact h, toggled_bit _ _ hj]
      simp [Ne.symm hne]
    · unfold ISR_TIMER1_COMPA
      rw [if_neg h]
  · intro h
    have h2 : (ISR_TIMER1_COMPA s).system_active ≠ 0 ∧ (ISR_TIMER1_COMPA s).paused = 0 := by
      rw [f.2.1, f.2.2.1]; exact h
    have e2 := ISR_TIMER1_COMPA_active (ISR_TIMER1_COMPA s) h2
    rw [e2, toggled_bit _ _ (by decide), hflip h]
    simp

end Sounder

namespace Sounder

/-- Witness for C11: the handler in the active state reached by pressing the
power switch, and in the inactive startup state. -/
theorem timer_handler_witness :
    (active_state.system_active ≠ 0 ∧ active_state.paused = 0) ∧
    (ISR_TIMER1_COMPA active_state).PORTB.testBit PB2 = !active_state.PORTB.testBit PB2 ∧
    (ISR_TIMER1_COMPA (ISR_TIMER1_COMPA active_state)).PORTB.testBit PB2 =
      active_state.PORTB.testBit PB2 ∧
    ¬ ((startup 48).1.system_active ≠ 0 ∧ (startup 48).1.paused = 0) ∧
    ISR_TIMER1_COMPA (startup 48).1 = (startup 48).1 :=
  ⟨by decide,
    (timer_handler active_state).1 (by decide),
    (timer_handler active_state).2.2.2.2.2.2.2.2.2.2.2.2 (by decide),
    by decide,
    (timer_handler (startup 48).1).2.1 (by decide)⟩

/-! ## Clamping in `set_frequency` -/

theorem set_frequency_divisor_eq (x : Nat) :
    set_frequency_divisor x = 2 * max 50 (min x 1000) := by
  unfold set_frequency_divisor MIN_FREQ MAX_FREQ
  dsimp only
  have hle : 2 * max 50 (min x 1000) < 65536 := by omega
  split_ifs with h1 h2 h2
  · omega
  · rw [u16_of_lt (by omega)]; omega
  · rw [u16_of_lt (by omega)]; omega
  · rw [u16_of_lt (by omega)]; omega

theorem set_frequency_uses_divisor (s : State) (x : Nat) :
    (set_frequency s x).OCR1A = u16 (F_CPU / set_frequency_divisor x - 1) := rfl

/-- C12: for every argument `x`, `set_frequency x` stores in the timer compare
register exactly the value it stores for `clamp(x, 50, 1000)`; that value is
`F_CPU / d - 1` truncated to 16 bits, where the divisor `d` computed by the
code equals `2 * clamp(x, 50, 1000)` (no 16-bit overflow) and lies in
`[100, 2000]`, hence is never zero; the global target frequency and every
other field of the state are left as they were. -/
theorem set_frequency_clamps (s : State) (x : Nat) :
    (set_frequency s x).OCR1A = (set_frequency s (max 50 (min x 1000))).OCR1A ∧
    (set_frequency s x).OCR1A = u16 (F_CPU / set_frequency_divisor x - 1) ∧
    set_frequency_divisor x = 2 * max MIN_FREQ (min x MAX_FREQ) ∧
    100 ≤ set_frequency_divisor x ∧ set_frequency_divisor x ≤ 2000 ∧
    set_frequency_divisor x ≠ 0 ∧
    (set_frequency s x).frequency = s.frequency ∧
    set_frequency s x = { s with OCR1A := (set_frequency s x).OCR1A } := by
  have hd := set_frequency_divisor_eq x
  have hd2 := set_frequency_divisor_eq (max 50 (min x 1000))
  have hidem : max 50 (min (max 50 (min x 1000)) 1000) = max 50 (min x 1000) := by omega
  refine ⟨?_, rfl, hd, by omega, by omega, by omega, rfl, rfl⟩
  rw [set_frequency_uses_divisor, set_frequency_uses_divisor, hd, hd2, hidem]

end Sounder

namespace Sounder

/-! ## The compare register follows the target frequency -/

end Sounder

namespace Sounder

/-! ## Power-switch edges -/

theorem switch_block_power_on (s : State) (r1 p2 : Nat) (hact : s.system_active = 0)
    (hprev : s.prev_switch_state ≠ 0) (h1 : r1 = 0) (h2 : pin_level p2 PC4 = 0) :
    switch_block s r1 p2 =
      ({ s with
          system_active := 1
          PORTC := u8 (s.PORTC ||| (1 <<< PC3))
          TIMSK1 := u8 (s.TIMSK1 ||| (1 <<< OCIE1A))
          prev_switch_state := 0 },
        [Event.delay_ms 20, Event.read_PINC, Event.uart_send_string "System ON\r\n"]) := by
  have hl : lnot s.system_active = 1 := by unfold lnot; rw [if_pos hact]
  unfold switch_block
  dsimp only
  rw [h2, h1, if_pos (Ne.symm hprev), if_pos (Ne.symm hprev), if_pos rfl, hl]
  rw [if_pos (by decide)]

theorem switch_block_release (s : State) (r1 p2 : Nat) (h1 : r1 ≠ s.prev_switch_state)
    (h2 : pin_level p2 PC4 ≠ s.prev_switch_state) (h3 : pin_level p2 PC4 ≠ 0) :
    switch_block s r1 p2 =
      ({ s with prev_switch_state := pin_level p2 PC4 },
        [Event.delay_ms 20, Event.read_PINC]) := by
  unfold switch_block
  dsimp only
  rw [if_pos h1, if_pos h2, if_neg h3]

theorem loop_iteration_after_switch (s : State) (i : LoopInput) :
    (loop_iteration s i).1.system_active =
      (switch_block s (pin_level i.pinc_switch PC4) i.pinc_switch_settled).1.system_active ∧
    (loop_iteration s i).1.prev_switch_state =
      (switch_block s (pin_level i.pinc_switch PC4) i.pinc_switch_settled).1.prev_switch_state ∧
    (loop_iteration s i).1.PORTC =
      (switch_block s (pin_level i.pinc_switch PC4) i.pinc_switch_settled).1.PORTC ∧
    (loop_iteration s i).1.TIMSK1 =
      (switch_block s (pin_level i.pinc_switch PC4) i.pinc_switch_settled).1.TIMSK1 := by
  have hr := reset_block_frame (switch_block s (pin_level i.pinc_switch PC4)
    i.pinc_switch_settled).1 (pin_level i.pinc_reset PC5) i.pinc_reset_settled
  have ha := active_block_frame (reset_block (switch_block s (pin_level i.pinc_switch PC4)
    i.pinc_switch_settled).1 (pin_level i.pinc_reset PC5) i.pinc_reset_settled).1 i.adc
  exact ⟨ha.1.trans hr.2.1, ha.2.2.1.trans hr.2.2.1,
    ha.2.2.2.2.2.1.trans hr.2.2.2.2.2.1, ha.2.2.2.2.2.2.2.trans hr.2.2.2.2.2.2.2.1⟩

theorem on_off_only_from_switch (s : State) (i : LoopInput) (str : String)
    (hstr : str = "System ON\r\n" ∨ str = "System OFF\r\n")
    (hm : str ∈ uart_output (loop_iteration s i).2) :
    str ∈ uart_output
      (switch_block s (pin_level i.pinc_switch PC4) i.pinc_switch_settled).2 := by
  rw [loop_iteration_uart_output, List.mem_append, List.mem_append] at hm
  rcases hm with (h | h) | h
  · exact h
  · exfalso
    have := reset_block_uart _ _ _ _ h
    rcases hstr with e | e <;> subst e <;> revert this <;> decide
  · exfalso
    obtain ⟨n, hn⟩ := active_block_uart _ _ _ h
    rcases hstr with e | e <;> subst e <;> exact telemetry_line_ne (by decide) hn.symm

theorem loop_iteration_uart_head (s : State) (i : LoopInput) (str : String)
    (rest : List String)
    (h : uart_output (switch_block s (pin_level i.pinc_switch PC4)
      i.pinc_switch_settled).2 = str :: rest) :
    (uart_output (loop_iteration s i).2).head? = some str := by
  rw [loop_iteration_uart_output, h]
  rfl

end Sounder

namespace Sounder

/-- C14: power-switch edges, for every state and every pass.  A confirmed
press (stable level 1, first read and re-read 0) flips `system_active` once
and makes the stable level 0; if the flag was clear it is now 1, the block
sends exactly "System ON", which is the first line of the pass, "System OFF"
is not sent, the LED bit `PC3` is set and the compare-interrupt enable bit
`OCIE1A` is set; if the flag was set it is now 0, the block sends exactly
"System OFF", first in the pass, and "System ON" is not sent.  A confirmed
release (stable level 0, first read and re-read 1) makes the stable level 1,
leaves `system_active`, `PORTC` and `TIMSK1` as they were, and sends neither
"System ON" nor "System OFF" (the block sends nothing). -/
theorem power_switch_edge (s : State) (i : LoopInput) :
    (s.prev_switch_state = 1 → pin_level i.pinc_switch PC4 = 0 →
      pin_level i.pinc_switch_settled PC4 = 0 →
      (loop_iteration s i).1.system_active = lnot s.system_active ∧
      (loop_iteration s i).1.prev_switch_state = 0 ∧
      (s.system_active = 0 →
        (loop_iteration s i).1.system_active = 1 ∧
        uart_output (switch_block s (pin_level i.pinc_switch PC4)
          i.pinc_switch_settled).2 = ["System ON\r\n"] ∧
        (uart_output (loop_iteration s i).2).head? = some "System ON\r\n" ∧
        "System OFF\r\n" ∉ uart_output (loop_iteration s i).2 ∧
        (loop_iteration s i).1.PORTC.testBit PC3 = true ∧
        (loop_iteration s i).1.TIMSK1.testBit OCIE1A = true) ∧
      (s.system_active ≠ 0 →
        (loop_iteration s i).1.system_active = 0 ∧
        uart_output (switch_block s (pin_level i.pinc_switch PC4)
          i.pinc_switch_settled).2 = ["System OFF\r\n"] ∧
        (uart_output (loop_iteration s i).2).head? = some "System OFF\r\n" ∧
        "System ON\r\n" ∉ uart_output (loop_iteration s i).2)) ∧
    (s.prev_switch_state = 0 → pin_level i.pinc_switch PC4 = 1 →
      pin_level i.pinc_switch_settled PC4 = 1 →
      (loop_iteration s i).1.prev_switch_state = 1 ∧
      (loop_iteration s i).1.system_active = s.system_active ∧
      (loop_iteration s i).1.PORTC = s.PORTC ∧
      (loop_iteration s i).1.TIMSK1 = s.TIMSK1 ∧
      uart_output (switch_block s (pin_level i.pinc_switch PC4)
        i.pinc_switch_settled).2 = [] ∧
      "System ON\r\n" ∉ uart_output (loop_iteration s i).2 ∧
      "System OFF\r\n" ∉ uart_output (loop_iteration s i).2) := by
  have hfin := loop_iteration_after_switch s i
  constructor
  · intro hprev h1 h2
    have hprev0 : s.prev_switch_state ≠ 0 := by rw [hprev]; decide
    have hon : s.system_active = 0 → switch_block s (pin_level i.pinc_switch PC4)
        i.pinc_switch_settled = _ :=
      fun h => switch_block_power_on s _ _ h hprev0 h1 h2
    have hoff : s.system_active ≠ 0 → switch_block s (pin_level i.pinc_switch PC4)
        i.pinc_switch_settled = _ :=
      fun h => switch_block_power_off s _ _ h hprev0 h1 h2
    refine ⟨?_, ?_, ?_, ?_⟩
    · rw [hfin.1]
      by_cases h : s.system_active = 0
      · rw [hon h]; unfold lnot; rw [if_pos h]
      · rw [hoff h]; unfold lnot; rw [if_neg h]
    · rw [hfin.2.1]
      by_cases h : s.system_active = 0
      · rw [hon h]
      · rw [hoff h]
    · intro h
      have hout : uart_output (switch_block s (pin_level i.pinc_switch PC4)
          i.pinc_switch_settled).2 = ["System ON\r\n"] := by rw [hon h]; rfl
      refine ⟨by rw [hfin.1, hon h], hout, loop_iteration_uart_head s i _ _ hout, ?_,
        ?_, ?_⟩
      · intro hm
        have := on_off_only_from_switch s i _ (Or.inr rfl) hm
        rw [hout] at this
        revert this; decide
      · rw [hfin.2.2.1, hon h]; exact raised_bit _ _ (by decide)
      · rw [hfin.2.2.2, hon h]; exact raised_bit _ _ (by decide)
    · intro h
      have hout : uart_output (switch_block s (pin_level i.pinc_switch PC4)
          i.pinc_switch_settled).2 = ["System OFF\r\n"] := by rw [hoff h]; rfl
      refine ⟨by rw [hfin.1, hoff h], hout, loop_iteration_uart_head s i _ _ hout, ?_⟩
      intro hm
      have := on_off_only_from_switch s i _ (Or.inl rfl) hm
      rw [hout] at this
      revert this; decide
  · intro hprev h1 h2
    have hrel := switch_block_release s (pin_level i.pinc_switch PC4)
      i.pinc_switch_settled (by rw [h1, hprev]; decide) (by rw [h2, hprev]; decide)
      (by rw [h2]; decide)
    have hout : uart_output (switch_block s (pin_level i.pinc_switch PC4)
        i.pinc_switch_settled).2 = [] := by rw [hrel]; rfl
    refine ⟨by rw [hfin.2.1, hrel]; exact h2, by rw [hfin.1, hrel], by rw [hfin.2.2.1, hrel],
      by rw [hfin.2.2.2, hrel], hout, ?_, ?_⟩
    · intro hm
      have := on_off_only_from_switch s i _ (Or.inl rfl) hm
      rw [hout] at this
      exact absurd this (List.not_mem_nil _)
    · intro hm
      have := on_off_only_from_switch s i _ (Or.inr rfl) hm
      rw [hout] at this
      exact absurd this (List.not_mem_nil _)

end Sounder

namespace Sounder

/-- Witness for C14: switching on from the startup state, switching off from
the active (and paused) state, and releasing the switch in the active state. -/
theorem power_switch_edge_witness :
    ((startup 48).1.prev_switch_state = 1 ∧ pin_level hold_input.pinc_switch PC4 = 0 ∧
      pin_level hold_input.pinc_switch_settled PC4 = 0 ∧ (startup 48).1.system_active = 0 ∧
      (loop_iteration (startup 48).1 hold_input).1.system_active = 1 ∧
      (uart_output (loop_iteration (startup 48).1 hold_input).2).head?
        = some "System ON\r\n") ∧
    (active_paused_state.prev_switch_state = 1 ∧
      pin_level switch_low_input.pinc_switch PC4 = 0 ∧
      pin_level switch_low_input.pinc_switch_settled PC4 = 0 ∧
      active_paused_state.system_active ≠ 0 ∧
      (loop_iteration active_paused_state switch_low_input).1.system_active = 0 ∧
      (uart_output (loop_iteration active_paused_state switch_low_input).2).head?
        = some "System OFF\r\n") ∧
    (active_state.prev_switch_state = 0 ∧ pin_level release_input.pinc_switch PC4 = 1 ∧
      pin_level release_input.pinc_switch_settled PC4 = 1 ∧
      (loop_iteration active_state release_input).1.prev_switch_state = 1 ∧
      (loop_iteration active_state release_input).1.system_active
        = active_state.system_active) :=
  ⟨⟨by decide, by decide, by decide, by decide,
      (((power_switch_edge (startup 48).1 hold_input).1 (by decide) (by decide)
        (by decide)).2.2.1 (by decide)).1,
      (((power_switch_edge (startup 48).1 hold_input).1 (by decide) (by decide)
        (by decide)).2.2.1 (by decide)).2.2.1⟩,
   ⟨by decide, by decide, by decide, by decide,
      (((power_switch_edge active_paused_state switch_low_input).1 (by decide) (by decide)
        (by decide)).2.2.2 (by decide)).1,
      (((power_switch_edge active_paused_state switch_low_input).1 (by decide) (by decide)
        (by decide)).2.2.2 (by decide)).2.2.1⟩,
   ⟨by decide, by decide, by decide,
      ((power_switch_edge active_state release_input).2 (by decide) (by decide)
        (by decide)).1,
      ((power_switch_edge active_state release_input).2 (by decide) (by decide)
        (by decide)).2.1⟩⟩

end Sounder

namespace Sounder

/-! ## Pause toggling -/

theorem reset_block_press (s : State) (r1 p2 : Nat) (hprev : s.prev_reset_button_state ≠ 0)
    (h1 : r1 = 0) (h2 : pin_level p2 PC5 = 0) :
    reset_block s r1 p2 =
      ({ s with paused := lnot s.paused, prev_reset_button_state := 0 },
        [Event.delay_ms 20, Event.read_PINC,
          Event.uart_send_string
            (if s.paused = 0 then "System Paused\r\n" else "System Resumed\r\n")]) := by
  unfold reset_block
  dsimp only
  rw [h2, h1, if_pos (Ne.symm hprev), if_pos (Ne.symm hprev), if_pos rfl]
  by_cases hp : s.paused = 0
  · have hl : lnot s.paused = 1 := by unfold lnot; rw [if_pos hp]
    rw [hl, if_pos (by decide), if_pos hp]
  · have hl : lnot s.paused = 0 := by unfold lnot; rw [if_neg hp]
    rw [hl, if_neg (by decide), if_neg hp]

theorem switch_block_stays_inactive (s : State) (c p : Nat) (h0 : s.system_active = 0)
    (h1 : (switch_block s c p).1.system_active = 0) :
    (switch_block s c p).1 =
      { s with prev_switch_state := (switch_block s c p).1.prev_switch_state } ∧
    uart_output (switch_block s c p).2 = [] ∧
    Event.adc_read ∉ (switch_block s c p).2 := by
  have hl : lnot s.system_active = 1 := by unfold lnot; rw [if_pos h0]
  unfold switch_block at h1 ⊢
  dsimp only at h1 ⊢
  split_ifs at h1 ⊢ with a b c d
  · rw [hl] at h1
    have h1n : (1 : Nat) = 0 := h1
    exact absurd h1n (by decide)
  · rw [hl] at d
    have dn : ¬ ((1 : Nat) ≠ 0) := d
    exact absurd (by decide) dn
  · exact ⟨rfl, rfl, by simp⟩
  · exact ⟨rfl, rfl, by simp⟩
  · exact ⟨rfl, rfl, by simp⟩

theorem paused_resumed_only_from_reset (s : State) (i : LoopInput) (str : String)
    (hstr : str = "System Paused\r\n" ∨ str = "System Resumed\r\n")
    (hm : str ∈ uart_output (loop_iteration s i).2) :
    str ∈ uart_output (reset_block
      (switch_block s (pin_level i.pinc_switch PC4) i.pinc_switch_settled).1
      (pin_level i.pinc_reset PC5) i.pinc_reset_settled).2 := by
  rw [loop_iteration_uart_output, List.mem_append, List.mem_append] at hm
  rcases hm with (h | h) | h
  · exfalso
    have := switch_block_uart _ _ _ _ h
    rcases hstr with e | e <;> subst e <;> revert this <;> decide
  · exact h
  · exfalso
    obtain ⟨n, hn⟩ := active_block_uart _ _ _ h
    rcases hstr with e | e <;> subst e <;> exact telemetry_line_ne (by decide) hn.symm

theorem loop_iteration_after_reset (s : State) (i : LoopInput) :
    (loop_iteration s i).1.paused =
      (reset_block (switch_block s (pin_level i.pinc_switch PC4) i.pinc_switch_settled).1
        (pin_level i.pinc_reset PC5) i.pinc_reset_settled).1.paused ∧
    (loop_iteration s i).1.prev_reset_button_state =
      (reset_block (switch_block s (pin_level i.pinc_switch PC4) i.pinc_switch_settled).1
        (pin_level i.pinc_reset PC5) i.pinc_reset_settled).1.prev_reset_button_state := by
  have ha := active_block_frame (reset_block (switch_block s (pin_level i.pinc_switch PC4)
    i.pinc_switch_settled).1 (pin_level i.pinc_reset PC5) i.pinc_reset_settled).1 i.adc
  exact ⟨ha.2.1, ha.2.2.2.1⟩

end Sounder

namespace Sounder

theorem switch_block_no_press (s : State) (i : LoopInput) (h0 : s.system_active = 0)
    (hnp : switch_press_confirmed s i = false) :
    (switch_block s (pin_level i.pinc_switch PC4)
      i.pinc_switch_settled).1.system_active = 0 := by
  unfold switch_press_confirmed at hnp
  simp only [decide_eq_false_iff_not] at hnp
  unfold switch_block
  dsimp only
  split_ifs with a b c d
  · exact absurd ⟨a, b, c⟩ hnp
  · exact absurd ⟨a, b, c⟩ hnp
  · exact h0
  · exact h0
  · exact h0

/-- C15 (counterexample): in the inactive startup state both buttons are
pressed in the same pass.  `system_active` is clear at the start and the reset
button makes a confirmed press (stable level 1, both reads 0); `paused` is
flipped and "System Paused" is sent, but the pass also sets `system_active`,
lights the status LED and sends "System ON".  From the inactive, paused state
the same input resumes, so the analog block runs as well: target frequency,
timer compare register, duty-cycle register and telemetry counter all change. -/
theorem pause_toggle_both_buttons :
    ((startup 48).1.system_active = 0 ∧ (startup 48).1.prev_reset_button_state = 1 ∧
      pin_level both_low_input.pinc_reset PC5 = 0 ∧
      pin_level both_low_input.pinc_reset_settled PC5 = 0 ∧
      (loop_iteration (startup 48).1 both_low_input).1.paused = lnot (startup 48).1.paused ∧
      uart_output (loop_iteration (startup 48).1 both_low_input).2 =
        ["System ON\r\n", "System Paused\r\n"] ∧
      (loop_iteration (startup 48).1 both_low_input).1.system_active = 1 ∧
      (loop_iteration (startup 48).1 both_low_input).1.PORTC.testBit PC3 = true ∧
      ¬ ((loop_iteration (startup 48).1 both_low_input).1.system_active =
          (startup 48).1.system_active)) ∧
    (inactive_paused_state.system_active = 0 ∧
      inactive_paused_state.prev_reset_button_state = 1 ∧
      inactive_paused_state.frequency = 440 ∧ inactive_paused_state.OCR1A = 18180 ∧
      inactive_paused_state.OCR0A = 0 ∧ inactive_paused_state.print_counter = 0 ∧
      uart_output (loop_iteration inactive_paused_state both_low_input).2 =
        ["System ON\r\n", "System Resumed\r\n"] ∧
      (loop_iteration inactive_paused_state both_low_input).1.system_active = 1 ∧
      (loop_iteration inactive_paused_state both_low_input).1.frequency = 525 ∧
      (loop_iteration inactive_paused_state both_low_input).1.OCR1A = 15237 ∧
      (loop_iteration inactive_paused_state both_low_input).1.OCR0A = 128 ∧
      (loop_iteration inactive_paused_state both_low_input).1.print_counter = 1) := by
  decide

/-- C15 (amended): a confirmed press of the reset button (stable level 1,
first read and re-read 0) in any state, whatever `system_active` is and
whatever the power switch does in the same pass: `paused` is flipped, the
stable level becomes 0, and the pass sends "System Paused" (and not "System
Resumed") if `paused` is now set, "System Resumed" (and not "System Paused")
otherwise.  When `system_active` is clear and the power switch makes no
confirmed press in that pass, the pass changes nothing else: `system_active`,
target frequency, timer compare register, duty-cycle register, `PORTB` (sound
pin) and telemetry counter are as before, the ADC is not read, the pause line
is the only line sent, and the whole state differs from the initial one only
in `paused` and the two stable levels. -/
theorem pause_toggle (s : State) (i : LoopInput)
    (hprev : s.prev_reset_button_state = 1)
    (h1 : pin_level i.pinc_reset PC5 = 0) (h2 : pin_level i.pinc_reset_settled PC5 = 0) :
    (loop_iteration s i).1.paused = lnot s.paused ∧
    (loop_iteration s i).1.prev_reset_button_state = 0 ∧
    (s.paused = 0 →
      (loop_iteration s i).1.paused = 1 ∧
      "System Paused\r\n" ∈ uart_output (loop_iteration s i).2 ∧
      "System Resumed\r\n" ∉ uart_output (loop_iteration s i).2) ∧
    (s.paused ≠ 0 →
      (loop_iteration s i).1.paused = 0 ∧
      "System Resumed\r\n" ∈ uart_output (loop_iteration s i).2 ∧
      "System Paused\r\n" ∉ uart_output (loop_iteration s i).2) ∧
    (s.system_active = 0 → switch_press_confirmed s i = false →
      (loop_iteration s i).1.system_active = s.system_active ∧
      (loop_iteration s i).1.frequency = s.frequency ∧
      (loop_iteration s i).1.OCR1A = s.OCR1A ∧
      (loop_iteration s i).1.OCR0A = s.OCR0A ∧
      (loop_iteration s i).1.PORTB = s.PORTB ∧
      (loop_iteration s i).1.print_counter = s.print_counter ∧
      Event.adc_read ∉ (loop_iteration s i).2 ∧
      uart_output (loop_iteration s i).2 =
        [if s.paused = 0 then "System Paused\r\n" else "System Resumed\r\n"] ∧
      (loop_iteration s i).1 =
        { s with paused := lnot s.paused, prev_reset_button_state := 0,
                 prev_switch_state := (loop_iteration s i).1.prev_switch_state }) := by
  have hsf := switch_block_frame s (pin_level i.pinc_switch PC4) i.pinc_switch_settled
  have hfin := loop_iteration_after_reset s i
  have hrp := reset_block_press (switch_block s (pin_level i.pinc_switch PC4)
    i.pinc_switch_settled).1 (pin_level i.pinc_reset PC5) i.pinc_reset_settled
    (by rw [hsf.2.2.1, hprev]; decide) h1 h2
  rw [hsf.2.1] at hrp
  have hro : uart_output (reset_block (switch_block s (pin_level i.pinc_switch PC4)
      i.pinc_switch_settled).1 (pin_level i.pinc_reset PC5) i.pinc_reset_settled).2 =
      [if s.paused = 0 then "System Paused\r\n" else "System Resumed\r\n"] := by
    rw [hrp]; rfl
  have hpaused : (loop_iteration s i).1.paused = lnot s.paused := by
    rw [hfin.1, hrp]
  have hin : (if s.paused = 0 then "System Paused\r\n" else "System Resumed\r\n") ∈
      uart_output (loop_iteration s i).2 := by
    rw [loop_iteration_uart_output, List.mem_append, List.mem_append, hro]
    exact Or.inl (Or.inr (List.mem_singleton.mpr rfl))
  refine ⟨hpaused, by rw [hfin.2, hrp], ?_, ?_, ?_⟩
  · intro hp
    rw [if_pos hp] at hin hro
    refine ⟨by rw [hpaused]; unfold lnot; rw [if_pos hp], hin, ?_⟩
    intro hm
    have := paused_resumed_only_from_reset s i _ (Or.inr rfl) hm
    rw [hro] at this
    revert this; decide
  · intro hp
    rw [if_neg hp] at hin hro
    refine ⟨by rw [hpaused]; unfold lnot; rw [if_neg hp], hin, ?_⟩
    intro hm
    have := paused_resumed_only_from_reset s i _ (Or.inl rfl) hm
    rw [hro] at this
    revert this; decide
  · intro h0 hnp
    have hsw0 := switch_block_no_press s i h0 hnp
    have hst := switch_block_stays_inactive s (pin_level i.pinc_switch PC4)
      i.pinc_switch_settled h0 hsw0
    have hidle := active_block_idle (reset_block (switch_block s
      (pin_level i.pinc_switch PC4) i.pinc_switch_settled).1 (pin_level i.pinc_reset PC5)
      i.pinc_reset_settled).1 i.adc (Or.inl (by rw [hrp]; exact hsw0))
    have hfinal : (loop_iteration s i).1 = (reset_block (switch_block s
        (pin_level i.pinc_switch PC4) i.pinc_switch_settled).1 (pin_level i.pinc_reset PC5)
        i.pinc_reset_settled).1 := by
      unfold loop_iteration
      dsimp only
      rw [hidle]
    have hev : (loop_iteration s i).2 = [Event.read_PINC, Event.read_PINC] ++
        (switch_block s (pin_level i.pinc_switch PC4) i.pinc_switch_settled).2 ++
        (reset_block (switch_block s (pin_level i.pinc_switch PC4)
          i.pinc_switch_settled).1 (pin_level i.pinc_reset PC5) i.pinc_reset_settled).2 ++
        [] ++ [Event.delay_ms 50] := by
      unfold loop_iteration
      dsimp only
      rw [hidle]
    have hfr := reset_block_frame (switch_block s (pin_level i.pinc_switch PC4)
      i.pinc_switch_settled).1 (pin_level i.pinc_reset PC5) i.pinc_reset_settled
    refine ⟨?_, ?_, ?_, ?_, ?_, ?_, ?_, ?_, ?_⟩
    · rw [hfinal, hfr.2.1, hst.1]
    · rw [hfinal, hfr.1, hst.1]
    · rw [hfinal, hfr.2.2.2.2.2.2.2.2.1, hst.1]
    · rw [hfinal, hfr.2.2.2.2.2.2.2.2.2, hst.1]
    · rw [hfinal, hfr.2.2.2.2.1, hst.1]
    · rw [hfinal, hfr.2.2.2.1, hst.1]
    · rw [hev, hrp]
      have := hst.2.2
      simp [this]
    · rw [loop_iteration_uart_output, hst.2.1, hro, hidle]
      rfl
    · have hps : (loop_iteration s i).1.prev_switch_state =
          (switch_block s (pin_level i.pinc_switch PC4)
            i.pinc_switch_settled).1.prev_switch_state := by
        rw [hfinal, hfr.2.2.1]
      rw [hps, hfinal, hrp]
      conv_lhs => rw [hst.1]

end Sounder

namespace Sounder

/-- Witness for the amended C15: the reset button pressed in the inactive
startup state while the switch pin keeps its level (pause), and pressed again,
after a release, in the inactive paused state (resume). -/
theorem pause_toggle_witness :
    ((startup 48).1.prev_reset_button_state = 1 ∧
      pin_level reset_low_input.pinc_reset PC5 = 0 ∧
      pin_level reset_low_input.pinc_reset_settled PC5 = 0 ∧
      (startup 48).1.paused = 0 ∧ (startup 48).1.system_active = 0 ∧
      switch_press_confirmed (startup 48).1 reset_low_input = false ∧
      "System Paused\r\n" ∈ uart_output (loop_iteration (startup 48).1 reset_low_input).2 ∧
      (loop_iteration (startup 48).1 reset_low_input).1.system_active
        = (startup 48).1.system_active ∧
      (loop_iteration (startup 48).1 reset_low_input).1.frequency
        = (startup 48).1.frequency) ∧
    (inactive_paused_state.prev_reset_button_state = 1 ∧
      inactive_paused_state.paused ≠ 0 ∧ inactive_paused_state.system_active = 0 ∧
      (loop_iteration inactive_paused_state reset_low_input).1.paused = 0 ∧
      "System Resumed\r\n" ∈
        uart_output (loop_iteration inactive_paused_state reset_low_input).2) :=
  ⟨⟨by decide, by decide, by decide, by decide, by decide, by decide,
      ((pause_toggle (startup 48).1 reset_low_input (by decide) (by decide)
        (by decide)).2.2.1 (by decide)).2.1,
      ((pause_toggle (startup 48).1 reset_low_input (by decide) (by decide)
        (by decide)).2.2.2.2 (by decide) (by decide)).1,
      ((pause_toggle (startup 48).1 reset_low_input (by decide) (by decide)
        (by decide)).2.2.2.2 (by decide) (by decide)).2.1⟩,
   ⟨by decide, by decide, by decide,
      ((pause_toggle inactive_paused_state reset_low_input (by decide) (by decide)
        (by decide)).2.2.2.1 (by decide)).1,
      ((pause_toggle inactive_paused_state reset_low_input (by decide) (by decide)
        (by decide)).2.2.2.1 (by decide)).2.1⟩⟩

end Sounder

namespace Sounder

/-! ## The potentiometer overrides serial adjustments -/

theorem switch_block_update (s : State) (f o c p : Nat) :
    switch_block { s with frequency := f, OCR1A := o } c p =
      ({ (switch_block s c p).1 with frequency := f, OCR1A := o },
        (switch_block s c p).2) := by
  unfold switch_block
  dsimp only
  split_ifs <;> rfl

theorem reset_block_update (s : State) (f o c p : Nat) :
    reset_block { s with frequency := f, OCR1A := o } c p =
      ({ (reset_block s c p).1 with frequency := f, OCR1A := o },
        (reset_block s c p).2) := by
  unfold reset_block
  dsimp only
  split_ifs <;> rfl

theorem active_block_update (s : State) (f o adc : Nat)
    (ha : s.system_active ≠ 0 ∧ s.paused = 0) :
    active_block { s with frequency := f, OCR1A := o } adc = active_block s adc := by
  unfold active_block set_pwm_duty_cycle set_frequency
  dsimp only
  rw [if_pos ha, if_pos ha]

theorem loop_iteration_update (s : State) (f o : Nat) (i : LoopInput)
    (ha : pass_is_active s i = true) :
    loop_iteration { s with frequency := f, OCR1A := o } i = loop_iteration s i := by
  unfold pass_is_active at ha
  simp only [decide_eq_true_eq] at ha
  unfold loop_iteration
  dsimp only
  rw [switch_block_update]
  dsimp only
  rw [reset_block_update]
  dsimp only
  rw [active_block_update _ _ _ _ ha]

theorem ISR_USART_RX_update (s : State) (c : Nat) :
    ISR_USART_RX s c =
      { s with frequency := (ISR_USART_RX s c).frequency,
               OCR1A := (ISR_USART_RX s c).OCR1A } := by
  unfold ISR_USART_RX set_frequency
  dsimp only
  split_ifs <;> rfl

theorem pass_compare_value (s : State) (i : LoopInput) (ha : pass_is_active s i = true) :
    (loop_iteration s i).1.OCR1A =
      (set_frequency s (map_frequency (u16 i.adc))).OCR1A := by
  unfold pass_is_active at ha
  simp only [decide_eq_true_eq] at ha
  unfold loop_iteration active_block
  dsimp only
  rw [if_pos ha]
  split_ifs <;> rfl

/-- C16: an active, unpaused control-loop pass takes the target frequency from
the ADC alone.  For a state `s`, any other target frequency `f` and compare
value `o`, and any reading `v ≤ 1023`: the pass from `s` and the pass from `s`
with `frequency := f`, `OCR1A := o` give the same state and the same events;
in particular both end with `frequency = 50 + v * 950 / 1023`, the compare
value `set_frequency` stores for it and the duty cycle of that frequency.  So
the pass after a serial-receive interrupt (any byte) ends exactly as it would
have without the interrupt. -/
theorem pot_overrides_serial (s : State) (f o : Nat) (i : LoopInput) (c : Nat)
    (hadc : i.adc ≤ 1023) (ha : pass_is_active s i = true) :
    loop_iteration { s with frequency := f, OCR1A := o } i = loop_iteration s i ∧
    (loop_iteration s i).1.frequency = 50 + i.adc * 950 / 1023 ∧
    (loop_iteration { s with frequency := f, OCR1A := o } i).1.frequency
      = 50 + i.adc * 950 / 1023 ∧
    (loop_iteration { s with frequency := f, OCR1A := o } i).1.OCR1A
      = (loop_iteration s i).1.OCR1A ∧
    (loop_iteration s i).1.OCR1A = (set_frequency s (50 + i.adc * 950 / 1023)).OCR1A ∧
    (loop_iteration { s with frequency := f, OCR1A := o } i).1.OCR0A
      = (loop_iteration s i).1.OCR0A ∧
    (loop_iteration s i).1.OCR0A = map_brightness (50 + i.adc * 950 / 1023) ∧
    loop_iteration (ISR_USART_RX s c) i = loop_iteration s i := by
  have hu := loop_iteration_update s f o i ha
  have hmf : map_frequency (u16 i.adc) = 50 + i.adc * 950 / 1023 := by
    rw [u16_of_lt (by omega), map_frequency_eq hadc]
  have hfreq : (loop_iteration s i).1.frequency = 50 + i.adc * 950 / 1023 := by
    rw [pass_frequency s i ha, hmf]
  have hduty : (loop_iteration s i).1.OCR0A = map_brightness (50 + i.adc * 950 / 1023) := by
    rw [pass_duty_cycle s i ha, hmf]
    unfold map_brightness u8
    exact Nat.mod_mod _ _
  refine ⟨hu, hfreq, by rw [hu, hfreq], by rw [hu], ?_, by rw [hu], hduty, ?_⟩
  · rw [pass_compare_value s i ha, hmf]
  · rw [ISR_USART_RX_update s c]
    exact loop_iteration_update s _ _ i ha

/-- Witness for C16: in the active state a `'+'` byte raises the target
frequency, and the next pass (ADC 512) ends as if it had not been received. -/
theorem pot_overrides_serial_witness :
    release_input.adc ≤ 1023 ∧ pass_is_active active_state release_input = true ∧
    (ISR_USART_RX active_state '+'.toNat).frequency = 535 ∧
    (loop_iteration (ISR_USART_RX active_state '+'.toNat) release_input).1.frequency = 525 ∧
    loop_iteration (ISR_USART_RX active_state '+'.toNat) release_input
      = loop_iteration active_state release_input :=
  ⟨by decide, by decide, by decide, by decide,
    (pot_overrides_serial active_state 0 0 release_input '+'.toNat (by decide)
      (by decide)).2.2.2.2.2.2.2⟩

end Sounder

namespace Sounder

/-! ## Outputs are off while the system is inactive -/

theorem switch_block_outputs (s : State) (c p : Nat)
    (h : s.system_active = 0 → outputs_off s) :
    (switch_block s c p).1.system_active = 0 → outputs_off (switch_block s c p).1 := by
  unfold switch_block
  dsimp only
  split_ifs with a b c d
  · intro h0
    exact absurd h0 d
  · intro _
    exact ⟨cleared_bit _ _ (by decide), cleared_bit _ _ (by decide), rfl⟩
  · exact h
  · exact h
  · exact h

theorem reset_block_outputs (s : State) (c p : Nat)
    (h : s.system_active = 0 → outputs_off s) :
    (reset_block s c p).1.system_active = 0 → outputs_off (reset_block s c p).1 := by
  have f := reset_block_frame s c p
  unfold outputs_off at h ⊢
  rw [f.2.1, f.2.2.2.2.1, f.2.2.2.2.2.1, f.2.2.2.2.2.2.2.2.2]
  exact h

theorem active_block_outputs (s : State) (adc : Nat)
    (h : s.system_active = 0 → outputs_off s) :
    (active_block s adc).1.system_active = 0 → outputs_off (active_block s adc).1 := by
  intro h0
  rw [(active_block_frame s adc).1] at h0
  rw [active_block_idle s adc (Or.inl h0)]
  exact h h0

theorem ISR_TIMER1_COMPA_outputs (s : State) (h : s.system_active = 0 → outputs_off s) :
    (ISR_TIMER1_COMPA s).system_active = 0 → outputs_off (ISR_TIMER1_COMPA s) := by
  intro h0
  rw [(ISR_TIMER1_COMPA_frame s).2.1] at h0
  have hs : ISR_TIMER1_COMPA s = s := by
    unfold ISR_TIMER1_COMPA
    rw [if_neg (fun hc => hc.1 h0)]
  rw [hs]
  exact h h0

theorem ISR_USART_RX_outputs (s : State) (c : Nat)
    (h : s.system_active = 0 → outputs_off s) :
    (ISR_USART_RX s c).system_active = 0 → outputs_off (ISR_USART_RX s c) := by
  have f := ISR_USART_RX_frame s c
  unfold outputs_off at h ⊢
  rw [f.1, f.2.2.2.2.2.1, f.2.2.2.2.2.2.1, f.2.2.2.2.2.2.2.2.2]
  exact h

theorem step_outputs (s : State) (st : Step) (h : s.system_active = 0 → outputs_off s) :
    (step s st).1.system_active = 0 → outputs_off (step s st).1 := by
  cases st with
  | usart_rx c => exact ISR_USART_RX_outputs s c h
  | timer1_compa => exact ISR_TIMER1_COMPA_outputs s h
  | loop i =>
    exact active_block_outputs _ i.adc
      (reset_block_outputs _ _ _ (switch_block_outputs s _ _ h))

theorem run_outputs (steps : List Step) :
    ∀ s : State, (s.system_active = 0 → outputs_off s) →
      (run s steps).1.system_active = 0 → outputs_off (run s steps).1 := by
  induction steps with
  | nil => intro s h; exact h
  | cons st rest ih => intro s h; exact ih (step s st).1 (step_outputs s st h)

/-- C17: the startup state is inactive with the output ports cleared and the
duty-cycle register 0, and in every state reached from it by any sequence of
control-loop passes, serial-receive interrupts and timer interrupts,
`system_active = 0` implies that the sound pin `PB2` is low, the status LED
bit `PC3` is clear and the duty-cycle register is 0. -/
theorem inactive_outputs_off (pinc : Nat) (steps : List Step) :
    (startup pinc).1.system_active = 0 ∧ (startup pinc).1.PORTB = 0 ∧
    (startup pinc).1.OCR0A = 0 ∧ outputs_off (startup pinc).1 ∧
    ((run (startup pinc).1 steps).1.system_active = 0 →
      (run (startup pinc).1 steps).1.PORTB.testBit PB2 = false ∧
      (run (startup pinc).1 steps).1.PORTC.testBit PC3 = false ∧
      (run (startup pinc).1 steps).1.OCR0A = 0) := by
  have h0 : outputs_off (startup pinc).1 := by
    show (0 : Nat).testBit PB2 = false ∧
      (u8 (u8 (0 ||| (1 <<< PC4)) ||| (1 <<< PC5))).testBit PC3 = false ∧ (0 : Nat) = 0
    decide
  exact ⟨rfl, rfl, rfl, h0, run_outputs steps (startup pinc).1 (fun _ => h0)⟩

/-- Witness for C17: the system is switched on, the timer toggles the sound
pin, the switch is released, the timer fires again, and the system is switched
off; the final state is inactive with all three outputs off. -/
theorem inactive_outputs_off_witness :
    (run (startup 48).1 [Step.loop hold_input, Step.timer1_compa]).1.PORTB.testBit PB2
      = true ∧
    (run (startup 48).1 on_off_steps).1.system_active = 0 ∧
    (run (startup 48).1 on_off_steps).1.PORTB.testBit PB2 = false ∧
    (run (startup 48).1 on_off_steps).1.PORTC.testBit PC3 = false ∧
    (run (startup 48).1 on_off_steps).1.OCR0A = 0 :=
  ⟨by decide, by decide,
    (inactive_outputs_off 48 on_off_steps).2.2.2.2 (by decide)⟩

end Sounder

namespace Sounder

/-! ## Monotonicity of the analog mapping -/

/-- C18: for readings `v1 ≤ v2 ≤ 1023` the mapped frequency of line 215 does
not decrease, `f(v1) ≤ f(v2)`, and the brightness of line 219 does not
increase, `b(f(v1)) ≥ b(f(v2))`; hence two active, unpaused passes with these
readings end with target frequencies and duty-cycle registers ordered in that
way. -/
theorem analog_maps_monotone (v1 v2 : Nat) (h12 : v1 ≤ v2) (h2 : v2 ≤ 1023) :
    map_frequency v1 ≤ map_frequency v2 ∧
    map_brightness (map_frequency v2) ≤ map_brightness (map_frequency v1) ∧
    (∀ (s1 s2 : State) (i1 i2 : LoopInput), i1.adc = v1 → i2.adc = v2 →
      pass_is_active s1 i1 = true → pass_is_active s2 i2 = true →
      (loop_iteration s1 i1).1.frequency ≤ (loop_iteration s2 i2).1.frequency ∧
      (loop_iteration s2 i2).1.OCR0A ≤ (loop_iteration s1 i1).1.OCR0A) := by
  have e1 := map_frequency_eq (by omega : v1 ≤ 1023)
  have e2 := map_frequency_eq h2
  have hf : map_frequency v1 ≤ map_frequency v2 := by
    rw [e1, e2]
    have : v1 * 950 / 1023 ≤ v2 * 950 / 1023 :=
      Nat.div_le_div_right (Nat.mul_le_mul_right 950 h12)
    omega
  have hlo : 50 ≤ map_frequency v1 := by rw [e1]; omega
  have hhi : map_frequency v2 ≤ 1000 := by rw [e2]; omega
  have b1 := map_brightness_eq hlo (by omega : map_frequency v1 ≤ 1000)
  have b2 := map_brightness_eq (by omega : 50 ≤ map_frequency v2) hhi
  have hb : map_brightness (map_frequency v2) ≤ map_brightness (map_frequency v1) := by
    rw [b1, b2]
    have : (map_frequency v1 - 50) * 255 / 950 ≤ (map_frequency v2 - 50) * 255 / 950 :=
      Nat.div_le_div_right (Nat.mul_le_mul_right 255 (by omega))
    omega
  refine ⟨hf, hb, ?_⟩
  intro s1 s2 i1 i2 ha1 ha2 hp1 hp2
  rw [pass_frequency s1 i1 hp1, pass_frequency s2 i2 hp2, pass_duty_cycle s1 i1 hp1,
    pass_duty_cycle s2 i2 hp2, ha1, ha2, u16_of_lt (by omega : v1 < 65536),
    u16_of_lt (by omega : v2 < 65536)]
  have hu1 : u8 (map_brightness (map_frequency v1)) = map_brightness (map_frequency v1) := by
    unfold map_brightness u8; exact Nat.mod_mod _ _
  have hu2 : u8 (map_brightness (map_frequency v2)) = map_brightness (map_frequency v2) := by
    unfold map_brightness u8; exact Nat.mod_mod _ _
  rw [hu1, hu2]
  exact ⟨hf, hb⟩

/-- Witness for C18: readings 100 and 900, applied in the pass that switches
the system on. -/
theorem analog_maps_monotone_witness :
    (100 : Nat) ≤ 900 ∧ (900 : Nat) ≤ 1023 ∧
    map_frequency 100 ≤ map_frequency 900 ∧
    map_brightness (map_frequency 900) ≤ map_brightness (map_frequency 100) ∧
    (loop_iteration (startup 48).1 ⟨32, 48, 32, 48, 100⟩).1.frequency ≤
      (loop_iteration (startup 48).1 ⟨32, 48, 32, 48, 900⟩).1.frequency ∧
    (loop_iteration (startup 48).1 ⟨32, 48, 32, 48, 900⟩).1.OCR0A ≤
      (loop_iteration (startup 48).1 ⟨32, 48, 32, 48, 100⟩).1.OCR0A :=
  ⟨by decide, by decide,
    (analog_maps_monotone 100 900 (by decide) (by decide)).1,
    (analog_maps_monotone 100 900 (by decide) (by decide)).2.1,
    (analog_maps_monotone 100 900 (by decide) (by decide)).2.2 (startup 48).1 (startup 48).1
      ⟨32, 48, 32, 48, 100⟩ ⟨32, 48, 32, 48, 900⟩ rfl rfl (by decide) (by decide)⟩

end Sounder
